import Mathlib

/-!
Verification development for the phockup media-classification program
(src/date.py, src/exif.py, src/phockup.py).

The Python sources are shallowly embedded as executable Lean functions:

* Strings are modelled as `List Char`; `str.split`, `str.replace`,
  `str.startswith`, `os.path.basename`, `os.path.splitext`,
  `os.path.normpath` are translated directly.
* Python `datetime` objects (naive, proleptic Gregorian, as produced by
  `datetime.strptime`) are modelled by their timeline position: an `Int`
  counting seconds since 1970-01-01 00:00:00.  `datetime - timedelta` is
  exact calendar arithmetic, hence plain `Int` subtraction.  Calendar
  fields are recovered with the standard civil-from-days conversion when
  formatting (`strftime`, `Phockup.get_file_name`).  Python restricts
  years to 1..9999; all datetimes handled here come from 4-digit-year
  parses, so they stay in range, and the model extends proleptically.
* `timedelta` values produced by `Date._parse_offset` are whole minutes,
  modelled as `Int` minutes.  A zero timedelta is falsy in Python; the
  model tests `= 0` wherever the source tests truthiness.
* The regexes are fixed patterns; their Python matching semantics
  (leftmost start, greedy `.*` and `:?`, backtracking) are translated to
  explicit scanning functions.  `.` is modelled as matching any
  character: the timestamp strings involved are single-line, so the
  no-newline behaviour of `.` is not observable here.
* Raised-and-uncaught Python exceptions are modelled with `Except PyErr`;
  functions whose exceptions are all caught locally stay pure.
* The filesystem is an association list from path to file data; logging
  and progress bars are not modelled, and directory creation
  (`os.makedirs` in `get_output_dir`) is a side effect with no influence
  on the computed values.
-/

/-- Python exception kinds that can escape the modelled functions. -/
inductive PyErr where
  | typeError
  | keyError
  | indexError
  | attributeError
  | fileNotFoundError
  deriving DecidableEq, Repr

/-! ### Character and list-string helpers -/

def isDigitCh (c : Char) : Bool := 48 ≤ c.toNat && c.toNat ≤ 57

def digitVal (c : Char) : Nat := c.toNat - 48

def isSignCh (c : Char) : Bool := c = '+' || c = '-'

/-- Python `\s` (the whitespace class used by `_strptime` for blanks in the
format string). -/
def isSpaceCh (c : Char) : Bool :=
  c = ' ' || c = '\t' || c = '\n' || c = '\x0b' || c = '\x0c' || c = '\r'

/-- `s.startswith(p)`. -/
def startswithL (p s : List Char) : Bool := p.isPrefixOf s

/-- `s.endswith(p)`. -/
def endswithL (s p : List Char) : Bool := p.isSuffixOf s

/-- ASCII `str.lower` (the file names handled are ASCII). -/
def lowerL (s : List Char) : List Char :=
  s.map fun c => if 65 ≤ c.toNat && c.toNat ≤ 90 then Char.ofNat (c.toNat + 32) else c

/-- `str.split(sep)` for a one-character separator (keeps empty pieces,
like Python). -/
def splitChar (sep : Char) : List Char → List (List Char)
  | [] => [[]]
  | c :: rest =>
    if c = sep then [] :: splitChar sep rest
    else
      match splitChar sep rest with
      | h :: t => (c :: h) :: t
      | [] => [[c]]

/-- `str.split()` with no argument: split on whitespace runs, dropping
empty pieces.  The fuel is the length of the string, which always
suffices since each round consumes at least one character. -/
def splitWsF : Nat → List Char → List (List Char)
  | 0, _ => []
  | fuel + 1, s =>
    match s.dropWhile isSpaceCh with
    | [] => []
    | c :: rest =>
      ((c :: rest).takeWhile (fun a => !isSpaceCh a)) ::
        splitWsF fuel ((c :: rest).dropWhile (fun a => !isSpaceCh a))

def splitWs (s : List Char) : List (List Char) := splitWsF s.length s

/-- `str.strip()` (strip leading and trailing whitespace). -/
def stripL (s : List Char) : List Char :=
  ((s.dropWhile isSpaceCh).reverse.dropWhile isSpaceCh).reverse

/-- Decimal digits of a natural number, like Python's `str(n)`. -/
def natChars (n : Nat) : List Char := Nat.toDigits 10 n

/-- `f-string` formatting `f'{n:02d}'` for a natural number. -/
def pad2 (n : Nat) : List Char :=
  if n < 10 then '0' :: natChars n else natChars n

/-- Left-pad with `c` to width `w`. -/
def padLeftL (c : Char) (w : Nat) (s : List Char) : List Char :=
  List.replicate (w - s.length) c ++ s

/-- `f'{z:04d}'` for an integer (zero-padded to total width 4, sign
included in the width, as in Python). -/
def intPad4 (z : Int) : List Char :=
  if z < 0 then '-' :: padLeftL '0' 3 (natChars (-z).toNat)
  else padLeftL '0' 4 (natChars z.toNat)

/-- `str.replace(pat, rep)` (all occurrences, left to right).  The fuel is
the length of the subject string; every step consumes at least one
subject character, so `s.length` fuel always suffices. -/
def pyReplaceF : Nat → List Char → List Char → List Char → List Char
  | 0, s, _, _ => s
  | _ + 1, [], _, _ => []
  | fuel + 1, c :: rest, pat, rep =>
    if pat ≠ [] && startswithL pat (c :: rest) then
      rep ++ pyReplaceF fuel ((c :: rest).drop pat.length) pat rep
    else
      c :: pyReplaceF fuel rest pat rep

def pyReplace (s pat rep : List Char) : List Char := pyReplaceF s.length s pat rep

/-! ### Calendar arithmetic (proleptic Gregorian)

`daysFromCivil`/`civilFromDays` are the standard era-based conversions
between a calendar date and a day count relative to 1970-01-01.  They are
used to model Python `datetime` values as second counts. -/

def isLeapYear (y : Nat) : Bool := (y % 4 = 0 && y % 100 ≠ 0) || y % 400 = 0

def monthLength (y m : Nat) : Nat :=
  if m = 2 then (if isLeapYear y then 29 else 28)
  else if m = 4 || m = 6 || m = 9 || m = 11 then 30
  else 31

/-- Days from 1970-01-01 to year `y`, month `m`, day `d` (valid civil
dates with `y ≥ 1` are the only inputs used). -/
def daysFromCivil (y m d : Nat) : Int :=
  let y2 : Nat := if m ≤ 2 then y - 1 else y
  let era : Nat := y2 / 400
  let yoe : Nat := y2 % 400
  let mp : Nat := if m > 2 then m - 3 else m + 9
  let doy : Nat := (153 * mp + 2) / 5 + (d - 1)
  let doe : Nat := yoe * 365 + yoe / 4 - yoe / 100 + doy
  (era * 146097 + doe : Int) - 719468

/-- Seconds from 1970-01-01 00:00:00 to the given civil date and time:
the model of a Python naive `datetime`. -/
def toSecs (y mo d h mi s : Nat) : Int :=
  daysFromCivil y mo d * 86400 + (h * 3600 + mi * 60 + s : Nat)

/-- Inverse of `daysFromCivil`: `(year, month, day)` of a day count
(defined for day counts at or after year 1, which covers every datetime
this development produces). -/
def civilFromDays (z : Int) : Int × Nat × Nat :=
  let z2 : Nat := (z + 719468).toNat
  let era : Nat := z2 / 146097
  let doe : Nat := z2 % 146097
  let yoe : Nat := (doe - doe / 1460 + doe / 36524 - doe / 146096) / 365
  let y : Nat := yoe + era * 400
  let doy : Nat := doe - (365 * yoe + yoe / 4 - yoe / 100)
  let mp : Nat := (5 * doy + 2) / 153
  let d : Nat := doy - (153 * mp + 2) / 5 + 1
  let m : Nat := if mp < 10 then mp + 3 else mp - 9
  (if m ≤ 2 then (y : Int) + 1 else (y : Int), m, d)

/-- Day part of a datetime (Python `dt.date()`, floor division). -/
def dtDays (t : Int) : Int := Int.ediv t 86400

/-- Seconds within the day. -/
def dtTod (t : Int) : Nat := (Int.emod t 86400).toNat

def dtYear (t : Int) : Int := (civilFromDays (dtDays t)).1

def dtMonth (t : Int) : Nat := (civilFromDays (dtDays t)).2.1

def dtDay (t : Int) : Nat := (civilFromDays (dtDays t)).2.2

def dtHour (t : Int) : Nat := dtTod t / 3600

def dtMinute (t : Int) : Nat := dtTod t % 3600 / 60

def dtSecond (t : Int) : Nat := dtTod t % 60

/-! ### `datetime.strptime` for the two layouts used by `Date.from_datestring`

CPython's `_strptime` compiles `%Y` to four digits, `%m`/`%d`/`%H`/`%M`/`%S`
to ordered one-or-two-digit alternations, turns whitespace in the format
into `\s+`, requires the match to consume the whole input, and finally
validates the fields through the `datetime` constructor (which also rejects
year 0 and leap seconds).  Every numeric directive here is followed by a
non-digit literal or the end of the input, so the ordered nonbacktracking
translation below is exact for these two formats. -/

def parse4Digits : List Char → Option (Nat × List Char)
  | a :: b :: c :: d :: rest =>
    if isDigitCh a && isDigitCh b && isDigitCh c && isDigitCh d then
      some (1000 * digitVal a + 100 * digitVal b + 10 * digitVal c + digitVal d, rest)
    else none
  | _ => none

/-- Ordered alternation: a two-digit branch, else a one-digit branch. -/
def alt21 (ok2 : Char → Char → Option Nat) (ok1 : Char → Option Nat) :
    List Char → Option (Nat × List Char)
  | a :: b :: rest =>
    match ok2 a b with
    | some v => some (v, rest)
    | none => (ok1 a).map fun v => (v, b :: rest)
  | [a] => (ok1 a).map fun v => (v, [])
  | [] => none

/-- `%m`: `1[0-2]|0[1-9]|[1-9]`. -/
def parseMonthDir : List Char → Option (Nat × List Char) :=
  alt21
    (fun a b =>
      if a = '1' && isDigitCh b && digitVal b ≤ 2 then some (10 + digitVal b)
      else if a = '0' && isDigitCh b && 1 ≤ digitVal b then some (digitVal b)
      else none)
    (fun a => if isDigitCh a && 1 ≤ digitVal a then some (digitVal a) else none)

/-- `%d`: `3[01]|[12]\d|0[1-9]|[1-9]`. -/
def parseDayDir : List Char → Option (Nat × List Char) :=
  alt21
    (fun a b =>
      if a = '3' && isDigitCh b && digitVal b ≤ 1 then some (30 + digitVal b)
      else if (a = '1' || a = '2') && isDigitCh b then some (10 * digitVal a + digitVal b)
      else if a = '0' && isDigitCh b && 1 ≤ digitVal b then some (digitVal b)
      else none)
    (fun a => if isDigitCh a && 1 ≤ digitVal a then some (digitVal a) else none)

/-- `%H`: `2[0-3]|[0-1]\d|\d`. -/
def parseHourDir : List Char → Option (Nat × List Char) :=
  alt21
    (fun a b =>
      if a = '2' && isDigitCh b && digitVal b ≤ 3 then some (20 + digitVal b)
      else if (a = '0' || a = '1') && isDigitCh b then some (10 * digitVal a + digitVal b)
      else none)
    (fun a => if isDigitCh a then some (digitVal a) else none)

/-- `%M`: `[0-5]\d|\d`. -/
def parseMinDir : List Char → Option (Nat × List Char) :=
  alt21
    (fun a b => if isDigitCh a && digitVal a ≤ 5 && isDigitCh b then
        some (10 * digitVal a + digitVal b) else none)
    (fun a => if isDigitCh a then some (digitVal a) else none)

/-- `%S`: `6[0-1]|[0-5]\d|\d` (values 60 and 61 then fail the `datetime`
constructor, which the validation step below reproduces). -/
def parseSecDir : List Char → Option (Nat × List Char) :=
  alt21
    (fun a b =>
      if a = '6' && isDigitCh b && digitVal b ≤ 1 then some (60 + digitVal b)
      else if isDigitCh a && digitVal a ≤ 5 && isDigitCh b then
        some (10 * digitVal a + digitVal b)
      else none)
    (fun a => if isDigitCh a then some (digitVal a) else none)

/-- A literal character of the format. -/
def parseLit (c : Char) : List Char → Option (List Char)
  | x :: rest => if x = c then some rest else none
  | [] => none

/-- Whitespace in the format: `\s+`. -/
def parseWs1 : List Char → Option (List Char)
  | x :: rest => if isSpaceCh x then some (rest.dropWhile isSpaceCh) else none
  | [] => none

/-- The `datetime(y, mo, d, h, mi, s)` constructor's validation. -/
def validCivil (y mo d h mi s : Nat) : Bool :=
  1 ≤ y && y ≤ 9999 && 1 ≤ mo && mo ≤ 12 && 1 ≤ d && d ≤ monthLength y mo &&
    h ≤ 23 && mi ≤ 59 && s ≤ 59

/-- `datetime.strptime(input, "%Y<sep>%m<sep>%d %H:%M:%S")`, returning the
datetime as seconds since the epoch, or `none` where Python raises
`ValueError`. -/
def strptimeYmdHms (sep : Char) (input : List Char) : Option Int := do
  let (y, r) ← parse4Digits input
  let r ← parseLit sep r
  let (mo, r) ← parseMonthDir r
  let r ← parseLit sep r
  let (d, r) ← parseDayDir r
  let r ← parseWs1 r
  let (h, r) ← parseHourDir r
  let r ← parseLit ':' r
  let (mi, r) ← parseMinDir r
  let r ← parseLit ':' r
  let (s, r) ← parseSecDir r
  if r = [] && validCivil y mo d h mi s then some (toSecs y mo d h mi s) else none

namespace Date

/-! ### `Date._parse_offset`

`re.search(r'([+-])(\d{2}):?(\d{2})', offset_str)`: leftmost match, with
the optional colon tried greedily at each candidate start. -/

/-- The offset pattern matched at the head of the list: sign, two digits,
optional colon, two digits.  Returns the signed minute value. -/
def offsetHeadVal : List Char → Option Int
  | a :: b :: c :: d :: rest =>
    if isSignCh a && isDigitCh b && isDigitCh c then
      if d = ':' then
        match rest with
        | e :: f :: _ =>
          if isDigitCh e && isDigitCh f then
            some ((if a = '+' then 1 else -1) *
              ((10 * digitVal b + digitVal c) * 60 + (10 * digitVal e + digitVal f)))
          else none
        | _ => none
      else
        match rest with
        | e :: _ =>
          if isDigitCh d && isDigitCh e then
            some ((if a = '+' then 1 else -1) *
              ((10 * digitVal b + digitVal c) * 60 + (10 * digitVal d + digitVal e)))
          else none
        | _ => none
    else none
  | _ => none

/-- Leftmost occurrence of the offset pattern, as its signed minute
value: the model of a successful `re.search` in `_parse_offset`. -/
def offsetSearchVal : List Char → Option Int
  | [] => none
  | c :: rest =>
    match offsetHeadVal (c :: rest) with
    | some v => some v
    | none => offsetSearchVal rest

/-- `Date._parse_offset(offset_str)`, with the resulting `timedelta` in
minutes.  (`timedelta(hours=sign*h, minutes=sign*m)` is `sign*(60*h+m)`
minutes.) -/
def parse_offset (offset_str : List Char) : Option Int :=
  if offset_str = [] then none else offsetSearchVal offset_str

/-! ### The offset-stripping regex of `Date.from_datestring`

`offset_search = r'(.*)([+-]\d{2}:?\d{2})'`.  The greedy `.*` makes group 2
start at the last position where the sign/digit pattern matches (the colon
variant preferred at that position), and the match itself starts at
position 0.  `re.sub` replaces every non-overlapping match, but the text
after the first match can contain no further match (a match there would
start later, contradicting maximality), so a single replacement is
exact. -/

/-- Length of the `[+-]\d{2}:?\d{2}` pattern matched at the head of the
list (6 with colon, else 5), if it matches. -/
def offsetLenAt : List Char → Option Nat
  | a :: b :: c :: d :: rest =>
    if isSignCh a && isDigitCh b && isDigitCh c then
      if d = ':' then
        match rest with
        | e :: f :: _ => if isDigitCh e && isDigitCh f then some 6 else none
        | _ => none
      else
        match rest with
        | e :: _ => if isDigitCh d && isDigitCh e then some 5 else none
        | _ => none
    else none
  | _ => none

/-- Start index and length of the last occurrence of the offset pattern
(the occurrence the greedy `(.*)` group selects). -/
def findOffsetStart : List Char → Option (Nat × Nat)
  | [] => none
  | c :: rest =>
    match findOffsetStart rest with
    | some (i, n) => some (i + 1, n)
    | none => (offsetLenAt (c :: rest)).map fun n => (0, n)

/-- `re.search(offset_search, s) is not None`. -/
def hasOffsetMatch (s : List Char) : Bool := (findOffsetStart s).isSome

/-- `re.sub(offset_search, r'\1', s)`: the string with the matched offset
removed. -/
def reSubGroup1 (s : List Char) : List Char :=
  match findOffsetStart s with
  | none => s
  | some (i, n) => s.take i ++ s.drop (i + n)

/-- `re.sub(offset_search, r'\2', s)`: the matched offset (plus any text
after it, which is empty for trailing offsets). -/
def reSubGroup2 (s : List Char) : List Char :=
  match findOffsetStart s with
  | none => s
  | some (i, n) => (s.drop i).take n ++ s.drop (i + n)

/-- Python `x or y` on optional timedeltas: `x` unless it is `None` or a
zero (falsy) timedelta. -/
def pyOrTd (x y : Option Int) : Option Int :=
  match x with
  | some v => if v ≠ 0 then some v else y
  | none => y

/-- The record returned by `Date.from_datestring`: `date` (instant in
epoch seconds or `None`), `subseconds`, `offset` (minutes). -/
structure ParsedDate where
  date : Option Int
  subseconds : List Char
  offset : Option Int
  deriving DecidableEq, Repr

/-- The format loop of `Date.from_datestring`: try
`'%Y:%m:%d %H:%M:%S'`, then `'%Y-%m-%d %H:%M:%S'`; the first success
wins. -/
def naiveParse (l : List Char) : Option Int :=
  match strptimeYmdHms ':' l with
  | some t => some t
  | none => strptimeYmdHms '-' l

/-- `Date.from_datestring(datestr)`. -/
def from_datestring (datestr : List Char) : ParsedDate :=
  let parts := splitChar '.' datestr
  let date0 := parts.headD []
  let subs0 := if parts.length > 1 then (parts.drop 1).headD [] else []
  let offA : Option Int :=
    if hasOffsetMatch date0 then parse_offset (reSubGroup2 date0) else none
  let date1 := if hasOffsetMatch date0 then reSubGroup1 date0 else date0
  let offset : Option Int :=
    if hasOffsetMatch subs0 then pyOrTd (parse_offset (reSubGroup2 subs0)) offA else offA
  let subs1 := if hasOffsetMatch subs0 then reSubGroup1 subs0 else subs0
  let pdt := naiveParse date1
  let pdt2 : Option Int :=
    match pdt, offset with
    | some t, some w => if w ≠ 0 then some (t - 60 * w) else some t
    | _, _ => pdt
  ⟨pdt2, subs1, offset⟩

end Date

/-! ### Metadata records and `Date.from_exif` -/

/-- A value in the metadata record returned by the external tool: a
string or a number (`isinstance(..., str)` distinguishes exactly
these). -/
inductive ExifVal where
  | s (v : List Char)
  | n (v : Int)
  deriving DecidableEq, Repr

/-- Python truthiness of a metadata value. -/
def ExifVal.truthy : ExifVal → Bool
  | .s v => v ≠ []
  | .n v => v ≠ 0

/-- A metadata record: a mapping from field name to value (Python dict,
keys unique). -/
def ExifMap := List (List Char × ExifVal)

/-- `exif[key]` / `key in exif`. -/
def lookupExif (m : ExifMap) (k : List Char) : Option ExifVal :=
  match m with
  | [] => none
  | (k2, v) :: rest => if k2 = k then some v else lookupExif rest k

namespace Date

/-- The default priority-ordered candidate timestamp fields. -/
def defaultDateKeys : List (List Char) :=
  [("SubSecCreateDate").toList, ("SubSecDateTimeOriginal").toList,
   ("CreateDate").toList, ("DateTimeOriginal").toList, ("MediaCreateDate").toList]

/-- The candidate-scanning loop of `Date.from_exif`: the first key whose
value is present, is a string, and does not start with `'0000'`. -/
def scanDatestr (keys : List (List Char)) (exif : ExifMap) : Option (List Char) :=
  match keys with
  | [] => none
  | k :: rest =>
    match lookupExif exif k with
    | some (.s v) =>
      if startswithL ("0000").toList v then scanDatestr rest exif else some v
    | some (.n _) => scanDatestr rest exif
    | none => scanDatestr rest exif

/-- Specification-style restatement of one scan step: the usable value a
key contributes, if any (absent key, non-string value and `'0000'` prefix
all yield `none`). -/
def usableValue (exif : ExifMap) (k : List Char) : Option (List Char) :=
  match lookupExif exif k with
  | some (.s v) => if startswithL ("0000").toList v then none else some v
  | _ => none

/-- `Date._parse_offset` applied to a metadata value: Python raises
`TypeError` when `re.search` receives a non-string. -/
def parse_offset_val : ExifVal → Except PyErr (Option Int)
  | .s v => .ok (parse_offset v)
  | .n _ => .error .typeError

/-- The timezone-field loop of `Date.from_exif` (lines 75-81): tried only
when an instant was parsed and no offset is recorded yet; the first key
whose value is truthy and parses to a nonzero offset is subtracted and
recorded. -/
def applyTzKeys (exif : ExifMap) (pd : ParsedDate) :
    List (List Char) → Except PyErr ParsedDate
  | [] => .ok pd
  | k :: rest =>
    match lookupExif exif k with
    | some v =>
      if v.truthy then
        match parse_offset_val v with
        | .error e => .error e
        | .ok (some w) =>
          if w ≠ 0 then
            .ok ⟨pd.date.map (fun t => t - 60 * w), pd.subseconds, some w⟩
          else applyTzKeys exif pd rest
        | .ok none => applyTzKeys exif pd rest
      else applyTzKeys exif pd rest
    | none => applyTzKeys exif pd rest

def tzKeys : List (List Char) :=
  [("OffsetTimeOriginal").toList, ("OffsetTimeDigitized").toList, ("TimeZone").toList]

def applyTz (exif : ExifMap) (pd : ParsedDate) : Except PyErr ParsedDate :=
  if pd.date.isSome && pd.offset = none then applyTzKeys exif pd tzKeys else .ok pd

/-! ### `Date.from_filename` -/

/-- The named capture groups of the filename regex, as integers. -/
structure DateObj where
  year : Nat
  month : Nat
  day : Nat
  hour : Nat
  minute : Nat
  second : Nat
  deriving DecidableEq, Repr

/-- Take exactly `k` decimal digits. -/
def takeDigits : Nat → List Char → Option (Nat × List Char)
  | 0, l => some (0, l)
  | k + 1, c :: rest =>
    if isDigitCh c then
      (takeDigits k rest).map fun (v, r) => (digitVal c * 10 ^ k + v, r)
    else none
  | _ + 1, [] => none

/-- The default filename regex
`.*[_-](?P<year>\d{4})(?P<month>\d{2})(?P<day>\d{2})[_-]?(?P<hour>\d{2})(?P<minute>\d{2})(?P<second>\d{2})`
matched at the head of `l` (i.e. with the `[_-]` at position 0); the
optional separator is taken greedily and, if the six digits then fail,
the regex backtracks to the separator-less branch, which a separator
character immediately ruins -- hence the if/else below. -/
def fnMatchAt (l : List Char) : Option DateObj := do
  match l with
  | c :: rest =>
    if c = '_' || c = '-' then do
      let (y, r) ← takeDigits 4 rest
      let (mo, r) ← takeDigits 2 r
      let (d, r) ← takeDigits 2 r
      match r with
      | c2 :: r2 =>
        if c2 = '_' || c2 = '-' then do
          let (h, r3) ← takeDigits 2 r2
          let (mi, r3) ← takeDigits 2 r3
          let (s, _) ← takeDigits 2 r3
          pure ⟨y, mo, d, h, mi, s⟩
        else do
          let (h, r3) ← takeDigits 2 (c2 :: r2)
          let (mi, r3) ← takeDigits 2 r3
          let (s, _) ← takeDigits 2 r3
          pure ⟨y, mo, d, h, mi, s⟩
      | [] => none
    else none
  | [] => none

/-- `regex.search(...)` for the default filename regex: the leading
greedy `.*` places the `[_-]` at the last position where the rest of the
pattern matches. -/
def fnSearch : List Char → Option DateObj
  | [] => none
  | c :: rest =>
    match fnSearch rest with
    | some g => some g
    | none => fnMatchAt (c :: rest)

/-- `os.path.basename` (POSIX separator). -/
def basenameL (p : List Char) : List Char := (splitChar '/' p).getLastD []

/-- `Date.build(date_object)`: the `datetime(...)` constructor on the
captured fields (`x if x else 0` is the identity on integers), `none`
where it raises `ValueError`. -/
def build (g : DateObj) : Option Int :=
  if validCivil g.year g.month g.day g.hour g.minute g.second then
    some (toSecs g.year g.month g.day g.hour g.minute g.second)
  else none

/-- The date-resolver object `Date(filename)`.  `mtime` is the value of
`datetime.fromtimestamp(os.path.getmtime(filename))` in epoch seconds
(`none` when the file is gone and `getmtime` would raise). -/
structure Resolver where
  filename : Option (List Char)
  mtime : Option Int

/-- `Date.from_timestamp`. -/
def from_timestamp (self : Resolver) : Except PyErr (Option ParsedDate) :=
  match self.mtime with
  | some t => .ok (some ⟨some t, [], none⟩)
  | none => .error .fileNotFoundError

/-- `Date.from_filename(user_regex, timestamp)`.  A user regex is an
external compiled-pattern object, modelled as its matching function; the
default regex is `fnSearch`.  Falls off the end (Python `None`) when
nothing matches and the timestamp fallback is off. -/
def from_filename (self : Resolver) (user_regex : Option (List Char → Option DateObj))
    (timestamp : Bool) : Except PyErr (Option ParsedDate) :=
  match self.filename with
  | none => .error .typeError
  | some fn =>
    let regex := user_regex.getD fnSearch
    let afterMatch : Except PyErr (Option ParsedDate) :=
      match regex (basenameL fn) with
      | some g =>
        match build g with
        | some t => .ok (some ⟨some t, [], none⟩)
        | none => if timestamp then from_timestamp self else .ok none
      | none => if timestamp then from_timestamp self else .ok none
    afterMatch

/-- `Date.from_exif(exif, timestamp, user_regex, date_field)`.  The
result is `None` or a parsed-date record; timezone fields holding a
truthy non-string raise `TypeError`, which `Except` carries. -/
def fieldKeys (date_field : Option (List Char)) : List (List Char) :=
  match date_field with
  | some df => splitWs df
  | none => defaultDateKeys

def from_exif (self : Resolver) (exif : ExifMap) (timestamp : Bool)
    (user_regex : Option (List Char → Option DateObj))
    (date_field : Option (List Char)) : Except PyErr (Option ParsedDate) :=
  let keys := fieldKeys date_field
  let datestr := scanDatestr keys exif
  let parsed : ParsedDate :=
    match datestr with
    | some v =>
      if v ≠ [] && !startswithL ("0000").toList v then from_datestring v
      else ⟨none, [], none⟩
    | none => ⟨none, [], none⟩
  match applyTz exif parsed with
  | .error e => .error e
  | .ok pd =>
    if pd.date.isSome then .ok (some pd)
    else
      match self.filename with
      | some fn =>
        if fn ≠ [] then from_filename self user_regex timestamp else .ok (some pd)
      | none => .ok (some pd)

/-- `Date.parse(date)`: the sequential `str.replace` chain turning the
user-facing directory-format tokens into `strftime` directives (POSIX
path separator). -/
def parse (date : List Char) : List Char :=
  let date := pyReplace date ("YYYY").toList ("%Y").toList
  let date := pyReplace date ("YY").toList ("%y").toList
  let date := pyReplace date ("m").toList ("%b").toList
  let date := pyReplace date ("MM").toList ("%m").toList
  let date := pyReplace date ("M").toList ("%B").toList
  let date := pyReplace date ("DDD").toList ("%j").toList
  let date := pyReplace date ("DD").toList ("%d").toList
  let date := pyReplace date ("U").toList ("%U").toList
  let date := pyReplace date ("W").toList ("%W").toList
  let date := pyReplace date ("\\").toList ("/").toList
  pyReplace date ("/").toList ("/").toList

end Date

/-! ### `datetime.date.strftime` for the directives `Date.parse` can emit

`%Y %y %b %m %B %j %d %U %W`, literal characters, and (glibc behaviour)
unknown directives passed through.  The argument is the day count of the
date (`dt.date()`).  Week numbers follow the C rules
`(yday + 7 - wday) / 7` with Sunday, resp. Monday, as day 0. -/

def monthAbbrev : Nat → List Char
  | 1 => ("Jan").toList | 2 => ("Feb").toList | 3 => ("Mar").toList
  | 4 => ("Apr").toList | 5 => ("May").toList | 6 => ("Jun").toList
  | 7 => ("Jul").toList | 8 => ("Aug").toList | 9 => ("Sep").toList
  | 10 => ("Oct").toList | 11 => ("Nov").toList | 12 => ("Dec").toList
  | _ => []

def monthFull : Nat → List Char
  | 1 => ("January").toList | 2 => ("February").toList | 3 => ("March").toList
  | 4 => ("April").toList | 5 => ("May").toList | 6 => ("June").toList
  | 7 => ("July").toList | 8 => ("August").toList | 9 => ("September").toList
  | 10 => ("October").toList | 11 => ("November").toList | 12 => ("December").toList
  | _ => []

def intChars (z : Int) : List Char :=
  if z < 0 then '-' :: natChars (-z).toNat else natChars z.toNat

/-- One `strftime` directive on the date with day count `z`. -/
def strftimeDir (c : Char) (z : Int) : List Char :=
  let ymd := civilFromDays z
  let y := ymd.1
  let yday0 : Nat := (z - daysFromCivil y.toNat 1 1).toNat
  let wdaySun : Nat := (Int.emod (z + 4) 7).toNat
  if c = 'Y' then intChars y
  else if c = 'y' then pad2 (Int.emod y 100).toNat
  else if c = 'b' then monthAbbrev ymd.2.1
  else if c = 'B' then monthFull ymd.2.1
  else if c = 'm' then pad2 ymd.2.1
  else if c = 'd' then pad2 ymd.2.2
  else if c = 'j' then padLeftL '0' 3 (natChars (yday0 + 1))
  else if c = 'U' then pad2 ((yday0 + 7 - wdaySun) / 7)
  else if c = 'W' then pad2 ((yday0 + 7 - (wdaySun + 6) % 7) / 7)
  else if c = '%' then ['%']
  else ['%', c]

def strftimeDate : List Char → Int → List Char
  | [], _ => []
  | ['%'], _ => ['%']
  | '%' :: c :: rest, z => strftimeDir c z ++ strftimeDate rest z
  | c :: rest, z => c :: strftimeDate rest z

/-! ### POSIX path helpers (`os.path` with `os.sep = '/'`) -/

/-- `os.path.splitext`: split off the extension at the last dot of the
base name, except that dots leading the base name do not count. -/
def splitextL (p : List Char) : List Char × List Char :=
  let parts := splitChar '/' p
  let b := parts.getLastD []
  let dir := p.take (p.length - b.length)
  let lead := (b.takeWhile (fun c => c = '.')).length
  let rev := b.reverse
  let extLenRev := (rev.takeWhile (fun c => c ≠ '.')).length
  if extLenRev < b.length && b.length - extLenRev - 1 ≥ lead then
    (dir ++ b.take (b.length - extLenRev - 1), b.drop (b.length - extLenRev - 1))
  else (p, [])

/-- `os.path.normpath` (POSIX rules). -/
def normpathL (p : List Char) : List Char :=
  if p = [] then ['.']
  else
    let initialSlashes : Nat :=
      if startswithL ("//").toList p && !startswithL ("///").toList p then 2
      else if startswithL ("/").toList p then 1 else 0
    let comps := splitChar '/' p
    let newComps := comps.foldl (fun acc comp =>
      if comp = [] || comp = ['.'] then acc
      else if comp ≠ ("..").toList ||
          (initialSlashes = 0 && acc = []) ||
          (acc ≠ [] && acc.getLastD [] = ("..").toList) then acc ++ [comp]
      else if acc ≠ [] then acc.dropLast
      else acc) []
    let joined := List.replicate initialSlashes '/' ++ List.intercalate ['/'] newComps
    if joined = [] then ['.'] else joined

/-- `os.path.sep.join` of two components (used for target paths). -/
def joinSep (a b : List Char) : List Char := a ++ '/' :: b

/-! ### The classification pipeline (`src/phockup.py`) -/

namespace Phockup

/-- File type resolved from the MIME type. -/
inductive FType where
  | image
  | video
  deriving DecidableEq, Repr

/-- `Phockup.MEDIA_EXTENSIONS`. -/
def MEDIA_EXTENSIONS : List (List Char) :=
  [(".jpg").toList, (".jpeg").toList, (".jpe").toList, (".png").toList,
   (".gif").toList, (".bmp").toList, (".tif").toList, (".tiff").toList,
   (".heic").toList, (".heif").toList, (".avif").toList, (".jxl").toList,
   (".dng").toList, (".cr2").toList, (".cr3").toList, (".nef").toList,
   (".arw").toList, (".orf").toList, (".raf").toList, (".rw2").toList,
   (".srw").toList, (".pef").toList, (".mp4").toList, (".mov").toList,
   (".m4v").toList, (".avi").toList, (".mts").toList, (".m2ts").toList,
   (".3gp").toList, (".mkv").toList]

/-- `Phockup.SIDECAR_EXTENSIONS`. -/
def SIDECAR_EXTENSIONS : List (List Char) :=
  [(".xmp").toList, (".aae").toList, (".json").toList]

/-- `Phockup.PAIRED_VIDEO_MAP` (every key maps to `('.mov', '.mp4')`). -/
def pairedVideoExts (ext : List Char) : List (List Char) :=
  if ext = (".heic").toList || ext = (".heif").toList || ext = (".jpg").toList ||
      ext = (".jpeg").toList || ext = (".dng").toList || ext = (".raf").toList then
    [(".mov").toList, (".mp4").toList]
  else []

/-- `Phockup.get_file_type(mimetype)`:
`^(image/.+|application/vnd.adobe.photoshop)$` then `^(video/.*)$`. -/
def get_file_type (mime : List Char) : Option FType :=
  if (startswithL ("image/").toList mime && mime.length > 6) ||
      mime = ("application/vnd.adobe.photoshop").toList then some .image
  else if startswithL ("video/").toList mime then some .video
  else none

/-- The configuration surface of a `Phockup` instance (the fields
`process_file` and its callees read). -/
structure Flags where
  output_dir : List Char
  output_pre : Option (List Char)
  output_suffix : Option (List Char)
  no_date_dir : List Char
  dir_format : List Char
  move : Bool
  link : Bool
  original_filenames : Bool
  date_regex : Option (List Char → Option Date.DateObj)
  timestamp : Bool
  date_field : Option (List Char)
  skip_unknown : Bool
  movedel : Bool
  dry_run : Bool
  file_type : Option FType
  from_date : Option Int
  to_date : Option Int

/-- The run statistics counters. -/
structure Stats where
  processed : Nat
  duplicates : Nat
  unknown : Nat
  moved : Nat
  copied : Nat
  deriving DecidableEq, Repr

def Stats.zero : Stats := ⟨0, 0, 0, 0, 0⟩

/-- One file on the modelled filesystem: `os.stat` size and mtime plus the
byte content (`filecmp.cmp(shallow=False)` reads the content; regular
files only). -/
structure FileData where
  size : Nat
  mtime : Int
  content : List Nat
  deriving DecidableEq, Repr

/-- The filesystem: an association list from absolute path to file. -/
def FS := List (List Char × FileData)

def fsLookup (fs : FS) (p : List Char) : Option FileData :=
  match fs with
  | [] => none
  | (k, v) :: rest => if k = p then some v else fsLookup rest p

/-- `os.path.isfile`. -/
def isfile (fs : FS) (p : List Char) : Bool := (fsLookup fs p).isSome

def fsRemove (fs : FS) (p : List Char) : FS :=
  match fs with
  | [] => []
  | (k, v) :: rest => if k = p then fsRemove rest p else (k, v) :: fsRemove rest p

def fsSet (fs : FS) (p : List Char) (d : FileData) : FS := (p, d) :: fsRemove fs p

/-- Filesystem mutations performed by a run (empty under `--dry-run`). -/
inductive Action where
  | removed (p : List Char)
  | moved (src tgt : List Char)
  | linked (src tgt : List Char)
  | copied (src tgt : List Char)
  deriving DecidableEq, Repr

/-- How one call of `process_file`'s strategy loop ended (mirrors the
`break`s and their log lines). -/
inductive Outcome where
  | typeFiltered
  | unknownSkipped
  | rangeSkipped
  | statRaceSkipped
  | duplicate (deleted : Bool)
  | moveRaceSkipped
  | copyRaceSkipped
  | transferred (target : List Char)
  | fuelOut
  deriving DecidableEq, Repr

/-- `file_date` as `process_file` sees it: the dict returned by
`Date.from_exif`, or (initially, or after the in-loop conversion
`file_date = file_date["date"]`) a datetime-or-`None` value, where
`raw none` is Python `None`. -/
inductive FileDateVal where
  | dict (pd : Date.ParsedDate)
  | raw (o : Option Int)
  deriving DecidableEq, Repr

def FileDateVal.isNone : FileDateVal → Bool
  | .raw o => o.isNone
  | .dict _ => false

/-- `Phockup.get_output_dir(date)`: the computed destination directory.
The `TypeError`/`ValueError` handler routes both a `None`/empty date and
an absent instant to the no-date directory; `os.makedirs` is a side
effect not modelled. -/
def get_output_dir (fl : Flags) (date : Option Date.ParsedDate) : List Char :=
  let middle : List Char :=
    match date with
    | some pd =>
      match pd.date with
      | some t => strftimeDate fl.dir_format (dtDays t)
      | none => fl.no_date_dir
    | none => fl.no_date_dir
  let path := [some fl.output_dir, fl.output_pre, some middle, fl.output_suffix]
  normpathL (List.intercalate ['/'] (path.filterMap id))

/-- `Phockup.get_file_name(original_filename, date)`.  `date["date"]`
with `date = None` raises `TypeError`, which is caught (original base
name); an absent instant inside a dict would raise an uncaught
`AttributeError` (`None.year`), which no pipeline path reaches. -/
def get_file_name (fl : Flags) (original_filename : List Char)
    (date : Option Date.ParsedDate) : Except PyErr (List Char) :=
  if fl.original_filenames then .ok (Date.basenameL original_filename)
  else
    match date with
    | none => .ok (Date.basenameL original_filename)
    | some pd =>
      match pd.date with
      | none => .error .attributeError
      | some t =>
        .ok (intPad4 (dtYear t) ++ pad2 (dtMonth t) ++ pad2 (dtDay t) ++
          '-' :: (pad2 (dtHour t) ++ pad2 (dtMinute t) ++ pad2 (dtSecond t)) ++
          (if pd.subseconds ≠ [] then pd.subseconds else []) ++
          (splitextL original_filename).2)

/-- `Phockup.should_inspect_exif(filename)`. -/
def should_inspect_exif (filename : List Char) : Bool :=
  lowerL (splitextL filename).2 ∈ MEDIA_EXTENSIONS

/-- `Phockup.get_file_name_and_path(filename)`.  `oracle` stands for
`Exif(filename).data()` (the metadata subsystem), `fs` supplies
`os.path.getmtime` for the timestamp fallback. -/
def get_file_name_and_path (fl : Flags) (oracle : List Char → Option ExifMap)
    (fs : FS) (filename : List Char) :
    Except PyErr (List Char × List Char × List Char × Option FType × FileDateVal) := do
  let exif_data : Option ExifMap :=
    if should_inspect_exif filename then oracle filename else none
  let target_file_type : Option FType ←
    match exif_data with
    | some [] => .ok none
    | some m =>
      match lookupExif m ("MIMEType").toList with
      | some (.s v) => .ok (get_file_type v)
      | some (.n _) => .error .typeError
      | none => .ok none
    | none => .ok none
  if target_file_type.isSome then
    let resolver : Date.Resolver :=
      ⟨some filename, (fsLookup fs filename).map (fun d => d.mtime)⟩
    let date ← Date.from_exif resolver (exif_data.getD []) fl.timestamp
      fl.date_regex fl.date_field
    let output := get_output_dir fl date
    let name0 ← get_file_name fl filename date
    let target_file_name := if !fl.original_filenames then lowerL name0 else name0
    let fd : FileDateVal := match date with
      | none => .raw none
      | some pd => .dict pd
    .ok (output, target_file_name, joinSep output target_file_name,
      target_file_type, fd)
  else
    let output := get_output_dir fl none
    let target_file_name := Date.basenameL filename
    .ok (output, target_file_name, joinSep output target_file_name,
      target_file_type, .raw none)

/-- `Phockup._transfer_companion(original, target_path)`. -/
def transferCompanion (fl : Flags) (st : FS × List Action)
    (original target_path : List Char) : FS × List Action :=
  let (fs, acts) := st
  if fl.dry_run then (fs, acts)
  else if (fsLookup fs target_path).isSome then (fs, acts)
  else if fl.move then
    match fsLookup fs original with
    | some d => (fsSet (fsRemove fs original) target_path d,
        acts ++ [.moved original target_path])
    | none => (fs, acts)
  else if fl.link then
    match fsLookup fs original with
    | some d => (fsSet fs target_path d, acts ++ [.linked original target_path])
    | none => (fs, acts)
  else
    match fsLookup fs original with
    | some d => (fsSet fs target_path d, acts ++ [.copied original target_path])
    | none => (fs, acts)

/-- `Phockup.process_sidecars(original_filename, file_name, suffix,
output)`.  The first two XMP placements form a dict literal, so equal
keys collapse to the second entry. -/
def process_sidecars (fl : Flags) (fs : FS) (acts : List Action)
    (original_filename file_name : List Char) (suffix : Nat)
    (output : List Char) : FS × List Action :=
  let suffix_str : List Char := if suffix > 1 then '-' :: natChars suffix else []
  let base_no_ext := (splitextL original_filename).1
  let dest_base_no_ext := (splitextL file_name).1
  let k1 := original_filename ++ (".xmp").toList
  let v1 := file_name ++ suffix_str ++ (".xmp").toList
  let k2 := base_no_ext ++ (".xmp").toList
  let v2 := dest_base_no_ext ++ suffix_str ++ (".xmp").toList
  let xmp_candidates := if k1 = k2 then [(k1, v2)] else [(k1, v1), (k2, v2)]
  let st := xmp_candidates.foldl (fun st (ot : List Char × List Char) =>
    if isfile st.1 ot.1 then transferCompanion fl st ot.1 (joinSep output ot.2)
    else st) (fs, acts)
  let st := SIDECAR_EXTENSIONS.foldl (fun st ext =>
    let original := base_no_ext ++ ext
    let target := dest_base_no_ext ++ suffix_str ++ ext
    if isfile st.1 original then transferCompanion fl st original (joinSep output target)
    else st) st
  let ext := lowerL (splitextL original_filename).2
  (pairedVideoExts ext).foldl (fun st companion_ext =>
    let companion_file := base_no_ext ++ companion_ext
    if isfile st.1 companion_file then
      transferCompanion fl st companion_file
        (joinSep output (dest_base_no_ext ++ suffix_str ++ companion_ext))
    else st) st

/-- The duplicate test of `process_file` (line 338): equal sizes and
(equal mtimes or `filecmp.cmp(..., shallow=False)`, i.e. equal
contents). -/
def isDuplicate (src tgt : FileData) : Bool :=
  src.size == tgt.size && (src.mtime == tgt.mtime || src.content == tgt.content)

/-- The next candidate destination after a name collision:
`splitext(target_file_path)` with `-{suffix}` before the extension. -/
def nextTarget (target_file_path : List Char) (suffix : Nat) : List Char :=
  (splitextL target_file_path).1 ++ '-' :: natChars suffix ++
    (splitextL target_file_path).2

/-- The `while True` strategy loop of `Phockup.process_file` (lines
293-388).  The fuel only bounds the collision-retry recursion; a fresh
suffixed name exists among finitely many files, so `fs.length + 1` fuel
is always enough.  Returns the filesystem, counters, mutation log and
the loop's outcome. -/
def processLoop (fl : Flags) (filename output tname tpath : List Char)
    (ftype : Option FType) :
    Nat → FS → FileDateVal → Nat → List Char → Stats → List Action →
    Except PyErr (FS × Stats × List Action × Outcome)
  | 0, fs, _, _, _, st, acts => .ok (fs, st, acts, .fuelOut)
  | fuel + 1, fs, fd, suffix, target, st, acts =>
    if (match fl.file_type with
        | some t => decide (some t ≠ ftype)
        | none => false) then
      .ok (fs, st, acts, .typeFiltered)
    else
      let date_unknown := fd.isNone || endswithL output fl.no_date_dir
      if fl.skip_unknown && endswithL output fl.no_date_dir then
        .ok (fs, { st with unknown := st.unknown + 1 }, acts, .unknownSkipped)
      else do
        let fd2 : FileDateVal :=
          if !date_unknown then
            match fd with
            | .dict pd => .raw pd.date
            | x => x
          else fd
        let skip : Bool ←
          if !date_unknown then do
            let s1 : Bool ←
              match fl.from_date with
              | some fromD =>
                match fd2 with
                | .raw (some t) => pure (decide (t < fromD))
                | _ => .error .typeError
              | none => pure false
            let s2 : Bool ←
              match fl.to_date with
              | some toD =>
                match fd2 with
                | .raw (some t) => pure (decide (t > toD))
                | _ => .error .typeError
              | none => pure false
            pure (s1 || s2)
          else pure false
        if skip then .ok (fs, st, acts, .rangeSkipped)
        else
          if isfile fs target then
            match fsLookup fs filename, fsLookup fs target with
            | some source_stats, some target_stats =>
              if isDuplicate source_stats target_stats then
                if fl.movedel && fl.move && fl.skip_unknown then
                  let fs2 := if !fl.dry_run then fsRemove fs filename else fs
                  let acts2 := if !fl.dry_run then acts ++ [.removed filename] else acts
                  .ok (fs2, { st with duplicates := st.duplicates + 1 }, acts2,
                    .duplicate true)
                else
                  .ok (fs, { st with duplicates := st.duplicates + 1 }, acts,
                    .duplicate false)
              else
                processLoop fl filename output tname tpath ftype fuel fs fd2
                  (suffix + 1) (nextTarget tpath (suffix + 1)) st acts
            | _, _ =>
              -- os.stat raced with an external deletion: FileNotFoundError,
              -- caught, "skipped, no such file or directory"
              .ok (fs, st, acts, .statRaceSkipped)
          else
            if fl.move then
              let st2 := { st with moved := st.moved + 1 }
              if fl.dry_run then
                let (fs3, acts3) := process_sidecars fl fs acts filename tname suffix output
                .ok (fs3, st2, acts3, .transferred target)
              else
                match fsLookup fs filename with
                | none => .ok (fs, st2, acts, .moveRaceSkipped)
                | some d =>
                  let fs2 := fsSet (fsRemove fs filename) target d
                  let acts2 := acts ++ [.moved filename target]
                  let (fs3, acts3) := process_sidecars fl fs2 acts2 filename tname suffix output
                  .ok (fs3, st2, acts3, .transferred target)
            else if fl.link && !fl.dry_run then
              match fsLookup fs filename with
              | none => .error .fileNotFoundError
              | some d =>
                let fs2 := fsSet fs target d
                let acts2 := acts ++ [.linked filename target]
                let (fs3, acts3) := process_sidecars fl fs2 acts2 filename tname suffix output
                .ok (fs3, st, acts3, .transferred target)
            else
              let st2 := { st with copied := st.copied + 1 }
              if fl.dry_run then
                let (fs3, acts3) := process_sidecars fl fs acts filename tname suffix output
                .ok (fs3, st2, acts3, .transferred target)
              else
                match fsLookup fs filename with
                | none => .ok (fs, st2, acts, .copyRaceSkipped)
                | some d =>
                  let fs2 := fsSet fs target d
                  let acts2 := acts ++ [.copied filename target]
                  let (fs3, acts3) := process_sidecars fl fs2 acts2 filename tname suffix output
                  .ok (fs3, st2, acts3, .transferred target)

/-- `Phockup.process_file(filename)`: the `.xmp` skip check, destination
computation, strategy loop, and the final `files_processed` increment.
Returns `none` as outcome for the early `.xmp` return. -/
def process_file (fl : Flags) (oracle : List Char → Option ExifMap) (fs : FS)
    (filename : List Char) (st : Stats) :
    Except PyErr (FS × Stats × List Action × Option Outcome) := do
  if endswithL filename (".xmp").toList then .ok (fs, st, [], none)
  else
    let (output, tname, tpath, ftype, fd) ← get_file_name_and_path fl oracle fs filename
    let (fs2, st2, acts, oc) ←
      processLoop fl filename output tname tpath ftype (fs.length + 1) fs fd 1 tpath st []
    .ok (fs2, { st2 with processed := st2.processed + 1 }, acts, some oc)

end Phockup

/-! ### The persistent exiftool session (`src/exif.py`) -/

namespace ExifSession

/-- A parsed Python JSON value, as `json.loads` produces it. -/
inductive PyJson where
  | arr (elems : List PyJson)
  | obj (fields : List (List Char × PyJson))
  | str (s : List Char)
  | num (n : Int)
  | bool (b : Bool)
  | null

/-- Python `value[0]` on a decoded JSON value: list/str index, dict key
lookup (JSON keys are strings, so integer key 0 is always a
`KeyError`), `TypeError` otherwise. -/
def subscriptZero : PyJson → Except PyErr PyJson
  | .arr [] => .error .indexError
  | .arr (x :: _) => .ok x
  | .obj _ => .error .keyError
  | .str [] => .error .indexError
  | .str (c :: _) => .ok (.str [c])
  | .num _ => .error .typeError
  | .bool _ => .error .typeError
  | .null => .error .typeError

/-- The completion token `f"__PHOCKUP_END__{n}__"`. -/
def tokenStr (n : Nat) : List Char :=
  ("__PHOCKUP_END__").toList ++ natChars n ++ ("__").toList

/-- The state `fetch` consults: whether `Popen` succeeded
(`self._process`), whether `self._process.stdin.closed`, and the request
counter `self._token`. -/
structure SessionState where
  processStarted : Bool
  stdinClosed : Bool
  token : Nat

/-- The read loop of `fetch`: stdout lines (without trailing newlines)
are accumulated until one strips to the completion token; reaching the
end of the stream ends the loop the same way.  The accumulation is
joined and stripped like `''.join(chunks).strip()`. -/
def accumulated (outLines : List (List Char)) (token : List Char) : List Char :=
  stripL (List.intercalate ['\n']
    (outLines.takeWhile (fun l => stripL l ≠ token)))

/-- `_ExiftoolSession.fetch(filename)`.  `writeOk` is whether the
`stdin.write`/`flush` pair succeeded (`BrokenPipeError`/`OSError` are
caught); `outLines` is the worker's stdout; `loads` is the standard
library's `json.loads`, an external collaborator passed in as the
parsing function, with `.error` for `json.JSONDecodeError`.  Returns the
first element of the decoded array, `none` where the source returns
`None`, and a raised error where the subscript raises one that the
`except (json.JSONDecodeError, IndexError)` clause does not catch. -/
def fetch (st : SessionState) (writeOk : Bool) (outLines : List (List Char))
    (loads : List Char → Except Unit PyJson) : Except PyErr (Option PyJson) :=
  if !st.processStarted || st.stdinClosed then .ok none
  else if !writeOk then .ok none
  else
    let token := tokenStr (st.token + 1)
    let data := accumulated outLines token
    if data = [] then .ok none
    else
      match loads data with
      | .error _ => .ok none
      | .ok j =>
        match subscriptZero j with
        | .ok v => .ok (some v)
        | .error .indexError => .ok none
        | .error e => .error e

end ExifSession

/-! ### Structured offset strings

`offChars sg h m colon` builds the exact character shape the offset
regexes recognise -- a sign, two digits, an optional colon, two digits --
so that theorems can quantify over every such string. -/

namespace Date

/-- The two decimal digits of `n < 100`. -/
def twoDig (n : Nat) : List Char := [Nat.digitChar (n / 10), Nat.digitChar (n % 10)]

/-- A trailing-offset string `±HH:MM` (`colon = true`) or `±HHMM`. -/
def offChars (sg : Bool) (h m : Nat) (colon : Bool) : List Char :=
  (if sg then '+' else '-') ::
    (twoDig h ++ (if colon then [':'] else []) ++ twoDig m)

/-- Its length: 6 with the colon, else 5. -/
def offLen (colon : Bool) : Nat := if colon then 6 else 5

/-- The timedelta `_parse_offset` produces for it, in minutes. -/
def offVal (sg : Bool) (h m : Nat) : Int :=
  (if sg then 1 else -1) * ((h * 60 + m : Nat) : Int)

/-- The predicate under which the candidate scan skips a field value:
numeric, or prefixed by the all-zero sentinel. -/
def badTimestampVal : ExifVal → Bool
  | .n _ => true
  | .s v => startswithL ("0000").toList v

end Date

namespace Phockup

/-- Statistics of a finished strategy-loop run (`none` if it raised). -/
def statsOfR (e : Except PyErr (FS × Stats × List Action × Outcome)) : Option Stats :=
  match e with
  | .ok r => some r.2.1
  | .error _ => none

/-- Mutation log of a finished strategy-loop run. -/
def actsOfR (e : Except PyErr (FS × Stats × List Action × Outcome)) : Option (List Action) :=
  match e with
  | .ok r => some r.2.2.1
  | .error _ => none

/-- Outcome of a finished strategy-loop run. -/
def outcomeOfR (e : Except PyErr (FS × Stats × List Action × Outcome)) : Option Outcome :=
  match e with
  | .ok r => some r.2.2.2
  | .error _ => none

/-- Filesystem after a finished strategy-loop run. -/
def fsOfR (e : Except PyErr (FS × Stats × List Action × Outcome)) : Option FS :=
  match e with
  | .ok r => some r.1
  | .error _ => none

end Phockup

/-! ## Theorems

Helper lemmas first, then one theorem (with witness or counterexample)
per claim C1-C10. -/

namespace Date

theorem isDigitCh_digitChar {k : Nat} (h : k < 10) : isDigitCh (Nat.digitChar k) = true := by
  interval_cases k <;> decide

theorem digitVal_digitChar {k : Nat} (h : k < 10) : digitVal (Nat.digitChar k) = k := by
  interval_cases k <;> decide

theorem isSignCh_digitChar {k : Nat} (h : k < 10) : isSignCh (Nat.digitChar k) = false := by
  interval_cases k <;> decide

theorem digitChar_ne_dot {k : Nat} (h : k < 10) : Nat.digitChar k ≠ '.' := by
  interval_cases k <;> decide

theorem digitChar_ne_colon {k : Nat} (h : k < 10) : Nat.digitChar k ≠ ':' := by
  interval_cases k <;> decide

theorem div10_lt {n : Nat} (h : n < 100) : n / 10 < 10 := by omega

theorem mod10_lt (n : Nat) : n % 10 < 10 := by omega

/-- `'.'` does not occur in an offset string. -/
theorem not_dot_mem_offChars {sg c : Bool} {h m : Nat} (hh : h < 100) (hm : m < 100) :
    '.' ∉ offChars sg h m c := by
  have d1 := digitChar_ne_dot (div10_lt hh)
  have d2 := digitChar_ne_dot (mod10_lt h)
  have d3 := digitChar_ne_dot (div10_lt hm)
  have d4 := digitChar_ne_dot (mod10_lt m)
  cases sg <;> cases c <;>
    simp_all [offChars, twoDig, eq_comm]

theorem offChars_length {sg c : Bool} {h m : Nat} :
    (offChars sg h m c).length = offLen c := by
  cases sg <;> cases c <;> simp [offChars, twoDig, offLen]

/-- A list with no sign characters has no offset match at its head. -/
theorem offsetLenAt_eq_none {a : Char} {l : List Char} (ha : isSignCh a = false) :
    offsetLenAt (a :: l) = none := by
  rcases l with _ | ⟨b, _ | ⟨c, _ | ⟨d, rest⟩⟩⟩ <;> simp [offsetLenAt, ha]

/-- A list with no sign characters has no offset match anywhere. -/
theorem findOffsetStart_eq_none {l : List Char}
    (hl : ∀ c ∈ l, isSignCh c = false) : findOffsetStart l = none := by
  induction l with
  | nil => rfl
  | cons c rest ih =>
    have hrest : findOffsetStart rest = none := ih fun x hx => hl x (List.mem_cons_of_mem _ hx)
    have hc : isSignCh c = false := hl c (List.mem_cons_self _ _)
    simp [findOffsetStart, hrest, offsetLenAt_eq_none hc]

/-- The offset pattern matches at the head of an offset string, with its
length. -/
theorem offsetLenAt_offChars {sg c : Bool} {h m : Nat} (hh : h < 100) (hm : m < 100) :
    offsetLenAt (offChars sg h m c) = some (offLen c) := by
  have i1 := isDigitCh_digitChar (div10_lt hh)
  have i2 := isDigitCh_digitChar (mod10_lt h)
  have i3 := isDigitCh_digitChar (div10_lt hm)
  have i4 := isDigitCh_digitChar (mod10_lt m)
  have nc := digitChar_ne_colon (div10_lt hm)
  cases sg <;> cases c <;>
    simp [offChars, twoDig, offsetLenAt, isSignCh, i1, i2, i3, i4, nc, offLen]

/-- The tail of an offset string contains no sign characters. -/
theorem no_sign_offChars_tail {c : Bool} {h m : Nat} (hh : h < 100) (hm : m < 100) :
    ∀ x ∈ twoDig h ++ (if c then [':'] else []) ++ twoDig m, isSignCh x = false := by
  have s1 := isSignCh_digitChar (div10_lt hh)
  have s2 := isSignCh_digitChar (mod10_lt h)
  have s3 := isSignCh_digitChar (div10_lt hm)
  have s4 := isSignCh_digitChar (mod10_lt m)
  intro x hx
  have hx2 : x = Nat.digitChar (h / 10) ∨ x = Nat.digitChar (h % 10) ∨ x = ':' ∨
      x = Nat.digitChar (m / 10) ∨ x = Nat.digitChar (m % 10) := by
    cases c <;> simp [twoDig] at hx <;> tauto
  rcases hx2 with rfl | rfl | rfl | rfl | rfl <;> first | assumption | rfl

/-- Unfolding lemma for `findOffsetStart` on a cons cell. -/
theorem findOffsetStart_cons (c : Char) (l : List Char) :
    findOffsetStart (c :: l) =
      match findOffsetStart l with
      | some (i, n) => some (i + 1, n)
      | none => (offsetLenAt (c :: l)).map fun n => (0, n) := rfl

/-- The offset pattern occurs exactly once in an offset string, at the
start. -/
theorem findOffsetStart_offChars {sg c : Bool} {h m : Nat}
    (hh : h < 100) (hm : m < 100) :
    findOffsetStart (offChars sg h m c) = some (0, offLen c) := by
  have htail : findOffsetStart (twoDig h ++ (if c then [':'] else []) ++ twoDig m) = none :=
    findOffsetStart_eq_none (no_sign_offChars_tail hh hm)
  have hcons : offChars sg h m c =
      (if sg then '+' else '-') :: (twoDig h ++ (if c then [':'] else []) ++ twoDig m) := rfl
  rw [hcons, findOffsetStart_cons, htail, ← hcons, offsetLenAt_offChars hh hm]
  rfl

/-- The greedy `(.*)` group: in `p ++ offChars ...` the last occurrence
of the offset pattern starts exactly at `p.length`. -/
theorem findOffsetStart_append (p : List Char) (sg c : Bool) (h m : Nat)
    (hh : h < 100) (hm : m < 100) :
    findOffsetStart (p ++ offChars sg h m c) = some (p.length, offLen c) := by
  induction p with
  | nil => simpa using findOffsetStart_offChars hh hm
  | cons x p ih =>
    rw [List.cons_append, findOffsetStart_cons, ih]
    rfl

theorem hasOffsetMatch_append (p : List Char) (sg c : Bool) (h m : Nat)
    (hh : h < 100) (hm : m < 100) : hasOffsetMatch (p ++ offChars sg h m c) = true := by
  simp [hasOffsetMatch, findOffsetStart_append p sg c h m hh hm]

/-- `re.sub(offset_search, r'\1', ...)` strips exactly the appended
offset. -/
theorem reSubGroup1_append (p : List Char) (sg c : Bool) (h m : Nat)
    (hh : h < 100) (hm : m < 100) : reSubGroup1 (p ++ offChars sg h m c) = p := by
  simp only [reSubGroup1, findOffsetStart_append p sg c h m hh hm]
  have hlen : (offChars sg h m c).length = offLen c := offChars_length
  have h2 : (p ++ offChars sg h m c).drop (p.length + offLen c) = [] := by
    rw [← List.drop_drop, List.drop_left]
    simp [hlen]
  rw [List.take_left' rfl, h2, List.append_nil]

/-- `re.sub(offset_search, r'\2', ...)` extracts exactly the appended
offset. -/
theorem reSubGroup2_append (p : List Char) (sg c : Bool) (h m : Nat)
    (hh : h < 100) (hm : m < 100) :
    reSubGroup2 (p ++ offChars sg h m c) = offChars sg h m c := by
  simp only [reSubGroup2, findOffsetStart_append p sg c h m hh hm]
  have hlen : (offChars sg h m c).length = offLen c := offChars_length
  have h1 : (p ++ offChars sg h m c).drop p.length = offChars sg h m c := List.drop_left _ _
  have h2 : (p ++ offChars sg h m c).drop (p.length + offLen c) = [] := by
    rw [← List.drop_drop, h1]
    simp [hlen]
  rw [h1, h2, List.append_nil, ← hlen, List.take_length]

/-- `_parse_offset` on an offset string: the signed minute value. -/
theorem parse_offset_offChars {sg c : Bool} {h m : Nat} (hh : h < 100) (hm : m < 100) :
    parse_offset (offChars sg h m c) = some (offVal sg h m) := by
  have i1 := isDigitCh_digitChar (div10_lt hh)
  have i2 := isDigitCh_digitChar (mod10_lt h)
  have i3 := isDigitCh_digitChar (div10_lt hm)
  have i4 := isDigitCh_digitChar (mod10_lt m)
  have v1 := digitVal_digitChar (div10_lt hh)
  have v2 := digitVal_digitChar (mod10_lt h)
  have v3 := digitVal_digitChar (div10_lt hm)
  have v4 := digitVal_digitChar (mod10_lt m)
  have nc := digitChar_ne_colon (div10_lt hm)
  have harith : (10 * (h / 10) + h % 10) * 60 + (10 * (m / 10) + m % 10) = h * 60 + m := by
    omega
  cases sg <;> cases c <;>
    simp only [parse_offset, offChars, twoDig, offsetSearchVal, offsetHeadVal, isSignCh,
      offVal] <;>
    simp [i1, i2, i3, i4, v1, v2, v3, v4, nc] <;>
    omega

/-- `str.split(sep)` of a separator-free string. -/
theorem splitChar_not_mem {sep : Char} {l : List Char} (hl : sep ∉ l) :
    splitChar sep l = [l] := by
  induction l with
  | nil => rfl
  | cons c rest ih =>
    have hc : ¬c = sep := fun h => hl (h ▸ List.mem_cons_self _ _)
    have hrest : sep ∉ rest := fun h => hl (List.mem_cons_of_mem _ h)
    simp [splitChar, hc, ih hrest]

/-- `str.split(sep)` peels a separator-free prefix. -/
theorem splitChar_append {sep : Char} {p : List Char} (r : List Char) (hp : sep ∉ p) :
    splitChar sep (p ++ sep :: r) = p :: splitChar sep r := by
  induction p with
  | nil => simp [splitChar]
  | cons c rest ih =>
    have hc : ¬c = sep := fun h => hp (h ▸ List.mem_cons_self _ _)
    have hrest : sep ∉ rest := fun h => hp (List.mem_cons_of_mem _ h)
    simp only [List.cons_append, splitChar, if_neg hc, List.append_eq, ih hrest]

theorem hasOffsetMatch_nil : hasOffsetMatch [] = false := rfl

theorem hasOffsetMatch_of_none {l : List Char} (hl : findOffsetStart l = none) :
    hasOffsetMatch l = false := by simp [hasOffsetMatch, hl]

/-- `from_datestring` on a string with a trailing offset after the
primary component and no sub-second fragment: the offset is stripped,
recorded, and subtracted from the naive parse. -/
theorem from_datestring_trailing (p : List Char) (sg c : Bool) (h m : Nat)
    (hh : h < 100) (hm : m < 100) (hp : '.' ∉ p) :
    from_datestring (p ++ offChars sg h m c) =
      ⟨(naiveParse p).map (fun t => t - 60 * offVal sg h m), [],
        some (offVal sg h m)⟩ := by
  have hdots : '.' ∉ p ++ offChars sg h m c := by
    rw [List.mem_append]
    rintro (hx | hx)
    · exact hp hx
    · exact not_dot_mem_offChars hh hm hx
  unfold from_datestring
  rw [splitChar_not_mem hdots]
  simp only [List.headD, List.length_singleton, gt_iff_lt, lt_irrefl, if_false,
    hasOffsetMatch_append p sg c h m hh hm, if_true, hasOffsetMatch_nil,
    Bool.false_eq_true, reSubGroup1_append p sg c h m hh hm,
    reSubGroup2_append p sg c h m hh hm, parse_offset_offChars hh hm]
  rcases hnp : naiveParse p with _ | t
  · simp
  · by_cases hw : offVal sg h m = 0 <;> simp [hw]

/-- `from_datestring` on a string whose only offset trails the
sub-second fragment: a nonzero offset is recorded and subtracted, a zero
one is discarded by the falsy-timedelta `or`. -/
theorem from_datestring_subsec (p q : List Char) (sg c : Bool) (h m : Nat)
    (hh : h < 100) (hm : m < 100) (hp : '.' ∉ p) (hq : '.' ∉ q)
    (hpo : findOffsetStart p = none) :
    from_datestring (p ++ '.' :: (q ++ offChars sg h m c)) =
      ⟨(naiveParse p).map
          (fun t => t - 60 * (if offVal sg h m = 0 then 0 else offVal sg h m)),
        q,
        if offVal sg h m = 0 then none else some (offVal sg h m)⟩ := by
  unfold from_datestring
  rw [splitChar_append _ hp, splitChar_not_mem (by
    rw [List.mem_append]
    rintro (hx | hx)
    · exact hq hx
    · exact not_dot_mem_offChars hh hm hx)]
  simp [List.headD, List.length_cons, List.length_singleton, List.length_nil,
    gt_iff_lt, List.drop_one, List.tail_cons, Nat.zero_add,
    hasOffsetMatch_of_none hpo, Bool.false_eq_true,
    hasOffsetMatch_append q sg c h m hh hm,
    reSubGroup1_append q sg c h m hh hm,
    reSubGroup2_append q sg c h m hh hm, parse_offset_offChars hh hm, pyOrTd]
  rcases hnp : naiveParse p with _ | t
  · by_cases hw : offVal sg h m = 0 <;> simp [hw]
  · by_cases hw : offVal sg h m = 0 <;> simp [hw]

/-- `from_datestring` when both the primary component and the sub-second
fragment carry trailing offsets: the sub-second one wins unless it is
zero (falsy), in which case the primary one stands. -/
theorem from_datestring_both (p q : List Char) (sg1 c1 sg2 c2 : Bool)
    (h1 m1 h2 m2 : Nat) (hh1 : h1 < 100) (hm1 : m1 < 100) (hh2 : h2 < 100)
    (hm2 : m2 < 100) (hp : '.' ∉ p) (hq : '.' ∉ q) :
    from_datestring ((p ++ offChars sg1 h1 m1 c1) ++ '.' :: (q ++ offChars sg2 h2 m2 c2)) =
      ⟨(naiveParse p).map
          (fun t => t - 60 * (if offVal sg2 h2 m2 = 0 then offVal sg1 h1 m1
            else offVal sg2 h2 m2)),
        q,
        some (if offVal sg2 h2 m2 = 0 then offVal sg1 h1 m1 else offVal sg2 h2 m2)⟩ := by
  have hp1 : '.' ∉ p ++ offChars sg1 h1 m1 c1 := by
    rw [List.mem_append]
    rintro (hx | hx)
    · exact hp hx
    · exact not_dot_mem_offChars hh1 hm1 hx
  unfold from_datestring
  rw [splitChar_append _ hp1, splitChar_not_mem (by
    rw [List.mem_append]
    rintro (hx | hx)
    · exact hq hx
    · exact not_dot_mem_offChars hh2 hm2 hx)]
  simp [List.headD, List.length_cons, List.length_singleton, List.length_nil,
    gt_iff_lt, List.drop_one, List.tail_cons, Nat.zero_add,
    hasOffsetMatch_append p sg1 c1 h1 m1 hh1 hm1,
    hasOffsetMatch_append q sg2 c2 h2 m2 hh2 hm2,
    reSubGroup1_append p sg1 c1 h1 m1 hh1 hm1,
    reSubGroup2_append p sg1 c1 h1 m1 hh1 hm1,
    reSubGroup1_append q sg2 c2 h2 m2 hh2 hm2,
    reSubGroup2_append q sg2 c2 h2 m2 hh2 hm2,
    parse_offset_offChars hh1 hm1, parse_offset_offChars hh2 hm2, pyOrTd]
  rcases hnp : naiveParse p with _ | t
  · by_cases hw2 : offVal sg2 h2 m2 = 0 <;> simp [hw2]
  · by_cases hw2 : offVal sg2 h2 m2 = 0 <;>
      by_cases hw1 : offVal sg1 h1 m1 = 0 <;> simp [hw1, hw2]

theorem offVal_zero (sg : Bool) : offVal sg 0 0 = 0 := by cases sg <;> rfl

/-- The timezone-field step never fires on a record whose offset is
already recorded. -/
theorem applyTz_skip (exif : ExifMap) (pd : ParsedDate) (hpd : pd.offset.isSome) :
    applyTz exif pd = .ok pd := by
  rcases hoff : pd.offset with _ | w
  · rw [hoff] at hpd
    exact absurd hpd (by simp)
  · simp [applyTz, hoff]

end Date

/-- C1 (amended): for a timestamp string carrying a trailing signed
`HH:MM`/`HHMM` offset after the primary date/time component -- and for one
carrying a trailing nonzero offset after the sub-second fragment when the
primary component has none -- the resolved instant is the naive parse of
the offset-stripped portion minus the offset, the offset is recorded on
the returned record, and a record with a recorded offset makes
`from_exif`'s timezone-field pass a no-op, so the offset is never applied
a second time.  (A zero offset trailing only the sub-second fragment is
the carved-out case: it is discarded, see C9.) -/
theorem c1_trailing_offset_subtracted_and_marked (p q : List Char) (sg c : Bool)
    (h m : Nat) (hh : h < 100) (hm : m < 100) (hp : '.' ∉ p) :
    (Date.from_datestring (p ++ Date.offChars sg h m c) =
      ⟨(Date.naiveParse p).map (fun t => t - 60 * Date.offVal sg h m), [],
        some (Date.offVal sg h m)⟩) ∧
    ('.' ∉ q → Date.findOffsetStart p = none → Date.offVal sg h m ≠ 0 →
      Date.from_datestring (p ++ '.' :: (q ++ Date.offChars sg h m c)) =
        ⟨(Date.naiveParse p).map (fun t => t - 60 * Date.offVal sg h m), q,
          some (Date.offVal sg h m)⟩) ∧
    (∀ (exif : ExifMap) (pd : Date.ParsedDate), pd.offset.isSome →
      Date.applyTz exif pd = .ok pd) := by
  refine ⟨Date.from_datestring_trailing p sg c h m hh hm hp, fun hq hpo hw => ?_,
    Date.applyTz_skip⟩
  rw [Date.from_datestring_subsec p q sg c h m hh hm hp hq hpo]
  simp [hw]

/-- Witness for C1 at `'2017:01:01 01:01:01' + '+02:30'`. -/
theorem c1_trailing_offset_witness :
    (2 < 100) ∧ (30 < 100) ∧ ('.' ∉ ("2017:01:01 01:01:01").toList) ∧
    Date.from_datestring (("2017:01:01 01:01:01").toList ++ Date.offChars true 2 30 true) =
      ⟨(Date.naiveParse (("2017:01:01 01:01:01").toList)).map
          (fun t => t - 60 * Date.offVal true 2 30), [], some (Date.offVal true 2 30)⟩ :=
  ⟨by decide, by decide, by decide,
    (c1_trailing_offset_subtracted_and_marked (("2017:01:01 01:01:01").toList) []
      true true 2 30 (by decide) (by decide) (by decide)).1⟩

/-- C1 counterexample to the claim as stated: the string
`'2017:01:01 01:01:01.5+00:00'` carries a trailing signed `HH:MM` offset
after its sub-second fragment, yet the returned record does *not* mark
the offset as applied (`offset` is `None`, because the zero timedelta is
falsy), and the separate timezone fields are then applied to the
instant. -/
theorem c1_zero_subsecond_offset_counterexample :
    (Date.from_datestring (("2017:01:01 01:01:01.5+00:00").toList)).offset = none ∧
    (Date.from_datestring (("2017:01:01 01:01:01.5+00:00").toList)).date =
      some (toSecs 2017 1 1 1 1 1) ∧
    Date.applyTz [(("OffsetTimeOriginal").toList, .s (("+02:00").toList))]
        (Date.from_datestring (("2017:01:01 01:01:01.5+00:00").toList)) =
      .ok ⟨some (toSecs 2017 1 1 1 1 1 - 7200), ['5'], some 120⟩ := by
  refine ⟨?_, ?_, ?_⟩ <;> rfl

/-- C2 (amended): when both the primary component and the sub-second
fragment carry trailing signed offsets, the recorded (and subtracted)
offset is the sub-second one whenever it parses to a nonzero (truthy)
timedelta; only a zero sub-second offset lets the primary one stand --
the opposite precedence to the claim's "primary wins". -/
theorem c2_subsecond_offset_precedence (p q : List Char) (sg1 c1 sg2 c2 : Bool)
    (h1 m1 h2 m2 : Nat) (hh1 : h1 < 100) (hm1 : m1 < 100) (hh2 : h2 < 100)
    (hm2 : m2 < 100) (hp : '.' ∉ p) (hq : '.' ∉ q) :
    Date.from_datestring
        ((p ++ Date.offChars sg1 h1 m1 c1) ++ '.' :: (q ++ Date.offChars sg2 h2 m2 c2)) =
      ⟨(Date.naiveParse p).map
          (fun t => t - 60 * (if Date.offVal sg2 h2 m2 = 0 then Date.offVal sg1 h1 m1
            else Date.offVal sg2 h2 m2)),
        q,
        some (if Date.offVal sg2 h2 m2 = 0 then Date.offVal sg1 h1 m1
          else Date.offVal sg2 h2 m2)⟩ :=
  Date.from_datestring_both p q sg1 c1 sg2 c2 h1 m1 h2 m2 hh1 hm1 hh2 hm2 hp hq

/-- Witness for C2: primary offset `+02:00`, sub-second offset `+05:00`;
the sub-second value (300 minutes) is recorded. -/
theorem c2_subsecond_offset_witness :
    ('.' ∉ ("2017:01:01 01:01:01").toList) ∧ ('.' ∉ ("123").toList) ∧
    Date.from_datestring
        ((("2017:01:01 01:01:01").toList ++ Date.offChars true 2 0 true) ++
          '.' :: (("123").toList ++ Date.offChars true 5 0 true)) =
      ⟨(Date.naiveParse (("2017:01:01 01:01:01").toList)).map
          (fun t => t - 60 * (if Date.offVal true 5 0 = 0 then Date.offVal true 2 0
            else Date.offVal true 5 0)),
        ("123").toList,
        some (if Date.offVal true 5 0 = 0 then Date.offVal true 2 0
          else Date.offVal true 5 0)⟩ :=
  ⟨by decide, by decide,
    c2_subsecond_offset_precedence (("2017:01:01 01:01:01").toList) (("123").toList)
      true true true true 2 0 5 0 (by decide) (by decide) (by decide) (by decide)
      (by decide) (by decide)⟩

/-- C2 counterexample to the claim as stated: in
`'2017:01:01 01:01:01+02:00.123+05:00'` both positions carry an offset;
the claim says the primary one (`+02:00`, 120 minutes) wins, but the code
records and subtracts the sub-second one (`+05:00`, 300 minutes). -/
theorem c2_primary_wins_counterexample :
    Date.from_datestring (("2017:01:01 01:01:01+02:00.123+05:00").toList) =
      ⟨some (toSecs 2017 1 1 1 1 1 - 18000), ("123").toList, some 300⟩ ∧
    Date.parse_offset (("+02:00").toList) = some 120 ∧ (300 : Int) ≠ 120 := by
  refine ⟨?_, ?_, ?_⟩ <;> first | rfl | decide

/-- C9: a syntactically valid trailing timezone offset of value zero on
the sub-second fragment is discarded by the truthiness test in
`_parse_offset(...) or offset`: the primary component's offset (or no
offset at all) is used instead, and the zero offset is never recorded
nor subtracted. -/
theorem c9_zero_subsecond_offset_discarded (p q : List Char) (sg c : Bool)
    (hp : '.' ∉ p) (hq : '.' ∉ q) :
    (Date.findOffsetStart p = none →
      Date.from_datestring (p ++ '.' :: (q ++ Date.offChars sg 0 0 c)) =
        ⟨Date.naiveParse p, q, none⟩) ∧
    (∀ (sg1 c1 : Bool) (h1 m1 : Nat), h1 < 100 → m1 < 100 →
      Date.from_datestring
          ((p ++ Date.offChars sg1 h1 m1 c1) ++ '.' :: (q ++ Date.offChars sg 0 0 c)) =
        ⟨(Date.naiveParse p).map (fun t => t - 60 * Date.offVal sg1 h1 m1), q,
          some (Date.offVal sg1 h1 m1)⟩) := by
  constructor
  · intro hpo
    rw [Date.from_datestring_subsec p q sg c 0 0 (by norm_num) (by norm_num) hp hq hpo]
    simp [Date.offVal_zero]
  · intro sg1 c1 h1 m1 hh1 hm1
    rw [Date.from_datestring_both p q sg1 c1 sg c h1 m1 0 0 hh1 hm1 (by norm_num)
      (by norm_num) hp hq]
    simp [Date.offVal_zero]

/-- Witness for C9 at `'2017:01:01 01:01:01.99+00:00'`: the zero offset
is dropped and nothing is recorded. -/
theorem c9_zero_subsecond_offset_witness :
    ('.' ∉ ("2017:01:01 01:01:01").toList) ∧ ('.' ∉ ("99").toList) ∧
    Date.findOffsetStart (("2017:01:01 01:01:01").toList) = none ∧
    Date.from_datestring
        (("2017:01:01 01:01:01").toList ++ '.' :: (("99").toList ++ Date.offChars true 0 0 true)) =
      ⟨Date.naiveParse (("2017:01:01 01:01:01").toList), ("99").toList, none⟩ :=
  ⟨by decide, by decide, by decide,
    (c9_zero_subsecond_offset_discarded (("2017:01:01 01:01:01").toList) (("99").toList)
      true true (by decide) (by decide)).1 (by decide)⟩

/-- C6: the candidate scan picks the first priority-ordered field whose
value is present, string-typed and not `'0000'`-prefixed -- exactly
`List.findSome?` of the per-field usable value -- and a field holding a
numeric value or an all-zero-prefixed string behaves exactly as if the
field were absent from the record (the predicate never parses the
value). -/
theorem c6_candidate_scan_first_usable :
    (∀ (keys : List (List Char)) (exif : ExifMap),
      Date.scanDatestr keys exif = keys.findSome? (Date.usableValue exif)) ∧
    (∀ (keys : List (List Char)) (k : List Char) (v : ExifVal) (exif : ExifMap),
      lookupExif exif k = none → Date.badTimestampVal v = true →
      Date.scanDatestr keys ((k, v) :: exif) = Date.scanDatestr keys exif) := by
  constructor
  · intro keys exif
    induction keys with
    | nil => rfl
    | cons k rest ih =>
      rw [List.findSome?_cons]
      rcases hv : lookupExif exif k with _ | ⟨v | n⟩
      · simp [Date.scanDatestr, Date.usableValue, hv, ih]
      · by_cases hz : startswithL ['0', '0', '0', '0'] v = true <;>
          simp [Date.scanDatestr, Date.usableValue, hv, hz, ih]
      · simp [Date.scanDatestr, Date.usableValue, hv, ih]
  · intro keys k v exif hmiss hbad
    induction keys with
    | nil => rfl
    | cons k2 rest ih =>
      by_cases hk : k = k2
      · subst hk
        rcases v with w | n
        · have hz : startswithL ['0', '0', '0', '0'] w = true := by
            simpa [Date.badTimestampVal] using hbad
          simp [Date.scanDatestr, lookupExif, hmiss, hz]
          exact ih
        · simp [Date.scanDatestr, lookupExif, hmiss]
          exact ih
      · have : lookupExif ((k, v) :: exif) k2 = lookupExif exif k2 := by
          simp [lookupExif, hk]
        rcases hv : lookupExif exif k2 with _ | ⟨w | n⟩ <;>
          simp [Date.scanDatestr, this, hv, ih]

/-- Witness for C6: a numeric `-1` in the highest-priority field is
skipped exactly like an absent field. -/
theorem c6_candidate_scan_witness :
    lookupExif [(("DateTimeOriginal").toList,
        .s (("2017:01:01 01:01:01").toList))] (("SubSecCreateDate").toList) = none ∧
    Date.badTimestampVal (.n (-1)) = true ∧
    Date.scanDatestr Date.defaultDateKeys
        ((("SubSecCreateDate").toList, ExifVal.n (-1)) ::
          [(("DateTimeOriginal").toList, .s (("2017:01:01 01:01:01").toList))]) =
      Date.scanDatestr Date.defaultDateKeys
        [(("DateTimeOriginal").toList, .s (("2017:01:01 01:01:01").toList))] :=
  ⟨by decide, by decide,
    c6_candidate_scan_first_usable.2 Date.defaultDateKeys (("SubSecCreateDate").toList)
      (.n (-1)) [(("DateTimeOriginal").toList, .s (("2017:01:01 01:01:01").toList))]
      (by decide) (by decide)⟩

/-- C3 (amended): on a record with no usable candidate timestamp field,
`from_exif` never raises; it returns the sentinel record with absent
instant and empty subseconds only when the resolver holds no file name,
and returns the bare absent value (Python `None`, not the sentinel
record) when a file name is present, the filename pattern does not match,
and the timestamp fallback is off. -/
theorem c3_no_usable_field_result (exif : ExifMap) (mt : Option Int) (ts : Bool)
    (urx : Option (List Char → Option Date.DateObj)) (df : Option (List Char))
    (hscan : Date.scanDatestr (Date.fieldKeys df) exif = none) :
    (Date.from_exif ⟨none, mt⟩ exif ts urx df = .ok (some ⟨none, [], none⟩)) ∧
    (∀ f : List Char, f ≠ [] → (urx.getD Date.fnSearch) (Date.basenameL f) = none →
      Date.from_exif ⟨some f, mt⟩ exif false urx df = .ok none) := by
  constructor
  · simp [Date.from_exif, hscan, Date.applyTz]
  · intro f hf hmatch
    simp [Date.from_exif, hscan, Date.applyTz, hf, Date.from_filename, hmatch]

/-- Witness for C3: a record holding only a MIME type, file name
`photo.jpg`. -/
theorem c3_no_usable_field_witness :
    Date.scanDatestr (Date.fieldKeys none)
        [(("MIMEType").toList, .s (("image/jpeg").toList))] = none ∧
    (("photo.jpg").toList ≠ []) ∧
    Date.fnSearch (Date.basenameL (("photo.jpg").toList)) = none ∧
    Date.from_exif ⟨some (("photo.jpg").toList), none⟩
        [(("MIMEType").toList, .s (("image/jpeg").toList))] false none none = .ok none :=
  ⟨by decide, by decide, by decide,
    (c3_no_usable_field_result [(("MIMEType").toList, .s (("image/jpeg").toList))]
      none false none none (by decide)).2 (("photo.jpg").toList) (by decide) (by decide)⟩

/-- C3 counterexample to the claim as stated: with a file name available
and no usable timestamp field, no filename match and no timestamp
fallback, `from_exif` returns Python `None` -- `from_filename` falls off
the end -- not the sentinel record with absent instant and empty
subseconds. -/
theorem c3_sentinel_counterexample :
    Date.from_exif ⟨some (("photo.jpg").toList), none⟩
        [(("MIMEType").toList, .s (("image/jpeg").toList))] false none none = .ok none ∧
    (Except.ok (none : Option Date.ParsedDate) : Except PyErr (Option Date.ParsedDate)) ≠
      .ok (some ⟨none, [], none⟩) := by
  exact ⟨rfl, by simp⟩

/-- C8: an input media file whose metadata date resolves to
`2017:01:01 01:01:01` with no offset and no subseconds, under directory
format `YYYY/MM/DD` (run through `Date.parse`), no prefix/suffix and
original-filenames off, gets destination directory `2017/01/01` under
the output root and file name `20170101-010101` plus the lower-cased
original extension. -/
theorem c8_end_to_end_destination :
    Phockup.get_file_name_and_path
        { output_dir := ("/out").toList, output_pre := none, output_suffix := none,
          no_date_dir := ("unknown").toList,
          dir_format := Date.parse (("YYYY/MM/DD").toList),
          move := false, link := false, original_filenames := false, date_regex := none,
          timestamp := false, date_field := none, skip_unknown := false,
          movedel := false, dry_run := false, file_type := none, from_date := none,
          to_date := none }
        (fun _ => some [(("MIMEType").toList, .s (("image/jpeg").toList)),
          (("CreateDate").toList, .s (("2017:01:01 01:01:01").toList))])
        [] (("/in/Photo.JPG").toList) =
      .ok ((("/out/2017/01/01").toList), (("20170101-010101.jpg").toList),
        (("/out/2017/01/01/20170101-010101.jpg").toList), some .image,
        .dict ⟨some (toSecs 2017 1 1 1 1 1), [], none⟩) := rfl

/-- C7 (amended): the skip-check stage of `process_file` skips exactly
the files whose name ends in `.xmp`; `.aae` and `.json` sidecars pass
through it and are processed as ordinary files. -/
theorem c7_skip_check_xmp_only (fl : Phockup.Flags)
    (oracle : List Char → Option ExifMap) (fs : Phockup.FS) (f : List Char)
    (st : Phockup.Stats) (hxmp : endswithL f ((".xmp").toList) = true) :
    Phockup.process_file fl oracle fs f st = .ok (fs, st, [], none) := by
  have hxmp2 : endswithL f ['.', 'x', 'm', 'p'] = true := by simpa using hxmp
  simp [Phockup.process_file, hxmp2]

/-- Witness for C7 on `/in/a.xmp`. -/
theorem c7_skip_check_witness :
    endswithL (("/in/a.xmp").toList) ((".xmp").toList) = true ∧
    Phockup.process_file
        { output_dir := ("/out").toList, output_pre := none, output_suffix := none,
          no_date_dir := ("unknown").toList,
          dir_format := Date.parse (("YYYY/MM/DD").toList),
          move := false, link := false, original_filenames := false, date_regex := none,
          timestamp := false, date_field := none, skip_unknown := false,
          movedel := false, dry_run := false, file_type := none, from_date := none,
          to_date := none }
        (fun _ => none) [] (("/in/a.xmp").toList) ⟨0, 0, 0, 0, 0⟩ =
      .ok ([], ⟨0, 0, 0, 0, 0⟩, [], none) :=
  ⟨by decide,
    c7_skip_check_xmp_only _ (fun _ => none) [] (("/in/a.xmp").toList) ⟨0, 0, 0, 0, 0⟩
      (by decide)⟩

/-- C7 counterexample to the claim as stated: `.aae` is a recognized
sidecar extension, yet a `.aae` file is not skipped at the skip-check
stage -- a dry run processes it, counts it as copied, and reports a
transfer into the no-date directory. -/
theorem c7_aae_not_skipped_counterexample :
    ((".aae").toList ∈ Phockup.SIDECAR_EXTENSIONS) ∧
    Phockup.process_file
        { output_dir := ("/out").toList, output_pre := none, output_suffix := none,
          no_date_dir := ("unknown").toList,
          dir_format := Date.parse (("YYYY/MM/DD").toList),
          move := false, link := false, original_filenames := false, date_regex := none,
          timestamp := false, date_field := none, skip_unknown := false,
          movedel := false, dry_run := true, file_type := none, from_date := none,
          to_date := none }
        (fun _ => none) [(("/in/a.aae").toList, ⟨10, 5, [1, 2, 3]⟩)]
        (("/in/a.aae").toList) ⟨0, 0, 0, 0, 0⟩ =
      .ok ([(("/in/a.aae").toList, ⟨10, 5, [1, 2, 3]⟩)], ⟨1, 0, 0, 0, 1⟩, [],
        some (.transferred (("/out/unknown/a.aae").toList))) :=
  ⟨by decide, rfl⟩

theorem foldl_id_aux {α β : Type} (l : List β) (init : α) :
    l.foldl (fun a _ => a) init = init := by
  induction l generalizing init with
  | nil => rfl
  | cons x xs ih => simp [List.foldl, ih]

/-- Under `--dry-run`, companion processing mutates nothing. -/
theorem process_sidecars_dry (fl : Phockup.Flags) (hdry : fl.dry_run = true)
    (fs : Phockup.FS) (acts : List Phockup.Action) (orig fname : List Char)
    (suffix : Nat) (output : List Char) :
    Phockup.process_sidecars fl fs acts orig fname suffix output = (fs, acts) := by
  have hid : ∀ (st : Phockup.FS × List Phockup.Action) (o t : List Char),
      Phockup.transferCompanion fl st o t = st := by
    intro st o t
    simp [Phockup.transferCompanion, hdry]
  simp only [Phockup.process_sidecars, hid, ite_self, foldl_id_aux]

theorem statsOfR_match_pair (p : Phockup.FS × List Phockup.Action)
    (s : Phockup.Stats) (oc : Phockup.Outcome) :
    Phockup.statsOfR (match p with | (a, b) => .ok (a, s, b, oc)) = some s := by
  rcases p with ⟨a, b⟩
  rfl

theorem outcomeOfR_match_pair (p : Phockup.FS × List Phockup.Action)
    (s : Phockup.Stats) (oc : Phockup.Outcome) :
    Phockup.outcomeOfR (match p with | (a, b) => .ok (a, s, b, oc)) = some oc := by
  rcases p with ⟨a, b⟩
  rfl

/-- C4: when a file already exists at the computed destination, it is
classified as a duplicate exactly when the sizes agree and (the mtimes
agree or the contents agree byte for byte); a duplicate bumps the
duplicate counter and deletes the source only under
`movedel ∧ move ∧ skip_unknown` with dry-run off (otherwise the source
stays); a non-duplicate retries the existence check with the
destination name carrying the incremented numeric suffix. -/
theorem c4_duplicate_resolution (fl : Phockup.Flags)
    (filename output tname tpath : List Char) (ftype : Option Phockup.FType)
    (fuel : Nat) (fs : Phockup.FS) (o : Option Int) (suffix : Nat)
    (target : List Char) (st : Phockup.Stats) (acts : List Phockup.Action)
    (sf tf : Phockup.FileData)
    (hft : (match fl.file_type with
      | some t => decide (some t ≠ ftype)
      | none => false) = false)
    (hsk : (fl.skip_unknown && endswithL output fl.no_date_dir) = false)
    (hfrom : fl.from_date = none) (hto : fl.to_date = none)
    (hsrc : Phockup.fsLookup fs filename = some sf)
    (htgt : Phockup.fsLookup fs target = some tf) :
    Phockup.processLoop fl filename output tname tpath ftype (fuel + 1) fs (.raw o)
        suffix target st acts =
      (if Phockup.isDuplicate sf tf then
        .ok ((if fl.movedel && fl.move && fl.skip_unknown && !fl.dry_run then
            Phockup.fsRemove fs filename else fs),
          { st with duplicates := st.duplicates + 1 },
          (if fl.movedel && fl.move && fl.skip_unknown && !fl.dry_run then
            acts ++ [.removed filename] else acts),
          .duplicate (fl.movedel && fl.move && fl.skip_unknown))
      else
        Phockup.processLoop fl filename output tname tpath ftype fuel fs (.raw o)
          (suffix + 1) (Phockup.nextTarget tpath (suffix + 1)) st acts) := by
  have hisf : Phockup.isfile fs target = true := by simp [Phockup.isfile, htgt]
  simp only [Phockup.processLoop, hft, Bool.false_eq_true, if_false, hsk, hfrom, hto,
    hisf, hsrc, htgt, ite_self]
  by_cases hdup : Phockup.isDuplicate sf tf
  · by_cases h3 : fl.movedel && fl.move && fl.skip_unknown
    · by_cases hdry : fl.dry_run <;>
        simp [hdup, h3, hdry, Except.pure]
    · by_cases hdry : fl.dry_run <;>
        simp [hdup, h3, hdry, Except.pure]
  · simp [hdup, Except.pure]

/-- Witness for C4: a same-size, same-mtime collision is a duplicate and
only bumps the duplicate counter; nothing is deleted without the
three-flag combination. -/
theorem c4_duplicate_resolution_witness :
    Phockup.fsLookup
        [((("/in/a.png").toList), ⟨10, 5, [1, 2, 3]⟩),
         ((("/out/unknown/a.png").toList), ⟨10, 5, [9, 9, 9]⟩)]
        (("/in/a.png").toList) = some ⟨10, 5, [1, 2, 3]⟩ ∧
    Phockup.fsLookup
        [((("/in/a.png").toList), ⟨10, 5, [1, 2, 3]⟩),
         ((("/out/unknown/a.png").toList), ⟨10, 5, [9, 9, 9]⟩)]
        (("/out/unknown/a.png").toList) = some ⟨10, 5, [9, 9, 9]⟩ ∧
    Phockup.processLoop
        { output_dir := ("/out").toList, output_pre := none, output_suffix := none,
          no_date_dir := ("unknown").toList,
          dir_format := Date.parse (("YYYY/MM/DD").toList),
          move := false, link := false, original_filenames := false, date_regex := none,
          timestamp := false, date_field := none, skip_unknown := false,
          movedel := false, dry_run := false, file_type := none, from_date := none,
          to_date := none }
        (("/in/a.png").toList) (("/out/unknown").toList) (("a.png").toList)
        (("/out/unknown/a.png").toList) none 3
        [((("/in/a.png").toList), ⟨10, 5, [1, 2, 3]⟩),
         ((("/out/unknown/a.png").toList), ⟨10, 5, [9, 9, 9]⟩)]
        (.raw none) 1 (("/out/unknown/a.png").toList) ⟨0, 0, 0, 0, 0⟩ [] =
      (if Phockup.isDuplicate ⟨10, 5, [1, 2, 3]⟩ ⟨10, 5, [9, 9, 9]⟩ then
        .ok ([((("/in/a.png").toList), ⟨10, 5, [1, 2, 3]⟩),
            ((("/out/unknown/a.png").toList), ⟨10, 5, [9, 9, 9]⟩)],
          ⟨0, 1, 0, 0, 0⟩, [], .duplicate false)
      else
        Phockup.processLoop
          { output_dir := ("/out").toList, output_pre := none, output_suffix := none,
            no_date_dir := ("unknown").toList,
            dir_format := Date.parse (("YYYY/MM/DD").toList),
            move := false, link := false, original_filenames := false, date_regex := none,
            timestamp := false, date_field := none, skip_unknown := false,
            movedel := false, dry_run := false, file_type := none, from_date := none,
            to_date := none }
          (("/in/a.png").toList) (("/out/unknown").toList) (("a.png").toList)
          (("/out/unknown/a.png").toList) none 2
          [((("/in/a.png").toList), ⟨10, 5, [1, 2, 3]⟩),
           ((("/out/unknown/a.png").toList), ⟨10, 5, [9, 9, 9]⟩)]
          (.raw none) 2
          (Phockup.nextTarget (("/out/unknown/a.png").toList) 2) ⟨0, 0, 0, 0, 0⟩ []) := by
  refine ⟨rfl, rfl, ?_⟩
  exact c4_duplicate_resolution _ _ _ _ _ _ 2 _ none 1 _ _ [] _ _ rfl rfl rfl rfl rfl rfl

/-- C10: the move and copy counters are bumped before the transfer is
attempted: a vanished source (the `FileNotFoundError` race, logged as
skipped) and a dry run are still counted, and a dry run performs no
filesystem mutation. -/
theorem c10_counters_before_transfer (fl : Phockup.Flags)
    (filename output tname tpath : List Char) (ftype : Option Phockup.FType)
    (fuel : Nat) (fs : Phockup.FS) (o : Option Int) (suffix : Nat)
    (target : List Char) (st : Phockup.Stats) (acts : List Phockup.Action)
    (hft : (match fl.file_type with
      | some t => decide (some t ≠ ftype)
      | none => false) = false)
    (hsk : (fl.skip_unknown && endswithL output fl.no_date_dir) = false)
    (hfrom : fl.from_date = none) (hto : fl.to_date = none)
    (htgt : Phockup.fsLookup fs target = none) :
    (fl.move = true →
      Phockup.statsOfR (Phockup.processLoop fl filename output tname tpath ftype
          (fuel + 1) fs (.raw o) suffix target st acts) =
        some { st with moved := st.moved + 1 }) ∧
    (fl.move = false → fl.link = false →
      Phockup.statsOfR (Phockup.processLoop fl filename output tname tpath ftype
          (fuel + 1) fs (.raw o) suffix target st acts) =
        some { st with copied := st.copied + 1 }) ∧
    (fl.move = true → fl.dry_run = false → Phockup.fsLookup fs filename = none →
      Phockup.outcomeOfR (Phockup.processLoop fl filename output tname tpath ftype
          (fuel + 1) fs (.raw o) suffix target st acts) =
        some .moveRaceSkipped) ∧
    (fl.move = false → fl.link = false → fl.dry_run = false →
      Phockup.fsLookup fs filename = none →
      Phockup.outcomeOfR (Phockup.processLoop fl filename output tname tpath ftype
          (fuel + 1) fs (.raw o) suffix target st acts) =
        some .copyRaceSkipped) ∧
    (fl.dry_run = true →
      Phockup.actsOfR (Phockup.processLoop fl filename output tname tpath ftype
          (fuel + 1) fs (.raw o) suffix target st acts) = some acts ∧
      Phockup.fsOfR (Phockup.processLoop fl filename output tname tpath ftype
          (fuel + 1) fs (.raw o) suffix target st acts) = some fs) := by
  have hisf : Phockup.isfile fs target = false := by simp [Phockup.isfile, htgt]
  simp only [Phockup.processLoop, hft, Bool.false_eq_true, if_false, hsk, hfrom, hto,
    hisf, ite_self]
  refine ⟨?_, ?_, ?_, ?_, ?_⟩
  · intro hmove
    by_cases hdry : fl.dry_run <;>
      rcases hsrc : Phockup.fsLookup fs filename with _ | d <;>
      simp [hmove, hdry, hsrc, Phockup.statsOfR, Except.pure, statsOfR_match_pair]
  · intro hmove hlink
    by_cases hdry : fl.dry_run <;>
      rcases hsrc : Phockup.fsLookup fs filename with _ | d <;>
      simp [hmove, hlink, hdry, hsrc, Phockup.statsOfR, Except.pure, statsOfR_match_pair]
  · intro hmove hdry hsrc
    simp [hmove, hdry, hsrc, Phockup.outcomeOfR, Except.pure]
  · intro hmove hlink hdry hsrc
    simp [hmove, hlink, hdry, hsrc, Phockup.outcomeOfR, Except.pure]
  · intro hdry
    have hsd := process_sidecars_dry fl hdry
    by_cases hmove : fl.move <;> by_cases hlink : fl.link <;>
      simp [hmove, hlink, hdry, hsd, Phockup.actsOfR, Phockup.fsOfR, Except.pure]

/-- Witness for C10: moving a file whose source vanished still counts it
as moved and reports the skip. -/
theorem c10_counters_witness :
    Phockup.fsLookup ([] : Phockup.FS) (("/out/unknown/a.png").toList) = none ∧
    Phockup.statsOfR (Phockup.processLoop
        { output_dir := ("/out").toList, output_pre := none, output_suffix := none,
          no_date_dir := ("unknown").toList,
          dir_format := Date.parse (("YYYY/MM/DD").toList),
          move := true, link := false, original_filenames := false, date_regex := none,
          timestamp := false, date_field := none, skip_unknown := false,
          movedel := false, dry_run := false, file_type := none, from_date := none,
          to_date := none }
        (("/in/a.png").toList) (("/out/unknown").toList) (("a.png").toList)
        (("/out/unknown/a.png").toList) none 1 [] (.raw none) 1
        (("/out/unknown/a.png").toList) ⟨0, 0, 0, 0, 0⟩ []) =
      some ⟨0, 0, 0, 1, 0⟩ ∧
    Phockup.outcomeOfR (Phockup.processLoop
        { output_dir := ("/out").toList, output_pre := none, output_suffix := none,
          no_date_dir := ("unknown").toList,
          dir_format := Date.parse (("YYYY/MM/DD").toList),
          move := true, link := false, original_filenames := false, date_regex := none,
          timestamp := false, date_field := none, skip_unknown := false,
          movedel := false, dry_run := false, file_type := none, from_date := none,
          to_date := none }
        (("/in/a.png").toList) (("/out/unknown").toList) (("a.png").toList)
        (("/out/unknown/a.png").toList) none 1 [] (.raw none) 1
        (("/out/unknown/a.png").toList) ⟨0, 0, 0, 0, 0⟩ []) =
      some .moveRaceSkipped := by
  have happ := c10_counters_before_transfer
    { output_dir := ("/out").toList, output_pre := none, output_suffix := none,
          no_date_dir := ("unknown").toList,
          dir_format := Date.parse (("YYYY/MM/DD").toList),
          move := true, link := false, original_filenames := false, date_regex := none,
          timestamp := false, date_field := none, skip_unknown := false,
          movedel := false, dry_run := false, file_type := none, from_date := none,
          to_date := none }
    (("/in/a.png").toList) (("/out/unknown").toList) (("a.png").toList)
    (("/out/unknown/a.png").toList) none 0 [] none 1
    (("/out/unknown/a.png").toList) ⟨0, 0, 0, 0, 0⟩ [] rfl rfl rfl rfl rfl
  exact ⟨rfl, happ.1 rfl, happ.2.2.1 rfl rfl rfl⟩

/-- C5 (amended): `fetch` returns absent immediately -- for any stdout
content -- when the worker failed to start or its stdin is closed, and
when the request write fails; an empty accumulation, a JSON parse
failure, and a decoded empty array also yield absent.  But a decoded
value that is not an array is not always absent: a JSON object raises an
uncaught `KeyError` and a number an uncaught `TypeError`, while a
nonempty array yields its first element. -/
theorem c5_fetch_absent_and_raises (st : ExifSession.SessionState) (writeOk : Bool)
    (outLines : List (List Char)) (loads : List Char → Except Unit ExifSession.PyJson) :
    (st.processStarted = false ∨ st.stdinClosed = true →
      ExifSession.fetch st writeOk outLines loads = .ok none) ∧
    (st.processStarted = true → st.stdinClosed = false → writeOk = false →
      ExifSession.fetch st writeOk outLines loads = .ok none) ∧
    (st.processStarted = true → st.stdinClosed = false → writeOk = true →
      ExifSession.accumulated outLines (ExifSession.tokenStr (st.token + 1)) = [] →
      ExifSession.fetch st writeOk outLines loads = .ok none) ∧
    (∀ e, st.processStarted = true → st.stdinClosed = false → writeOk = true →
      loads (ExifSession.accumulated outLines (ExifSession.tokenStr (st.token + 1))) =
          .error e →
      ExifSession.fetch st writeOk outLines loads = .ok none) ∧
    (st.processStarted = true → st.stdinClosed = false → writeOk = true →
      loads (ExifSession.accumulated outLines (ExifSession.tokenStr (st.token + 1))) =
          .ok (.arr []) →
      ExifSession.fetch st writeOk outLines loads = .ok none) ∧
    (∀ flds, st.processStarted = true → st.stdinClosed = false → writeOk = true →
      ExifSession.accumulated outLines (ExifSession.tokenStr (st.token + 1)) ≠ [] →
      loads (ExifSession.accumulated outLines (ExifSession.tokenStr (st.token + 1))) =
          .ok (.obj flds) →
      ExifSession.fetch st writeOk outLines loads = .error .keyError) ∧
    (∀ n, st.processStarted = true → st.stdinClosed = false → writeOk = true →
      ExifSession.accumulated outLines (ExifSession.tokenStr (st.token + 1)) ≠ [] →
      loads (ExifSession.accumulated outLines (ExifSession.tokenStr (st.token + 1))) =
          .ok (.num n) →
      ExifSession.fetch st writeOk outLines loads = .error .typeError) ∧
    (∀ x xs, st.processStarted = true → st.stdinClosed = false → writeOk = true →
      ExifSession.accumulated outLines (ExifSession.tokenStr (st.token + 1)) ≠ [] →
      loads (ExifSession.accumulated outLines (ExifSession.tokenStr (st.token + 1))) =
          .ok (.arr (x :: xs)) →
      ExifSession.fetch st writeOk outLines loads = .ok (some x)) := by
  refine ⟨?_, ?_, ?_, ?_, ?_, ?_, ?_, ?_⟩
  · rintro (hps | hcl)
    · simp [ExifSession.fetch, hps]
    · simp [ExifSession.fetch, hcl]
  · intro hps hcl hw
    simp [ExifSession.fetch, hps, hcl, hw]
  · intro hps hcl hw hdata
    simp [ExifSession.fetch, hps, hcl, hw, hdata]
  · intro e hps hcl hw hloads
    by_cases hdata :
        ExifSession.accumulated outLines (ExifSession.tokenStr (st.token + 1)) = [] <;>
      simp [ExifSession.fetch, hps, hcl, hw, hdata, hloads]
  · intro hps hcl hw hloads
    by_cases hdata :
        ExifSession.accumulated outLines (ExifSession.tokenStr (st.token + 1)) = [] <;>
      simp [ExifSession.fetch, hps, hcl, hw, hdata, hloads, ExifSession.subscriptZero]
  · intro flds hps hcl hw hdata hloads
    simp [ExifSession.fetch, hps, hcl, hw, hdata, hloads, ExifSession.subscriptZero]
  · intro n hps hcl hw hdata hloads
    simp [ExifSession.fetch, hps, hcl, hw, hdata, hloads, ExifSession.subscriptZero]
  · intro x xs hps hcl hw hdata hloads
    simp [ExifSession.fetch, hps, hcl, hw, hdata, hloads, ExifSession.subscriptZero]

/-- Witness for C5: a worker that never started answers absent no matter
what is on the stream. -/
theorem c5_fetch_absent_witness :
    ((false : Bool) = false ∨ (false : Bool) = true) ∧
    ExifSession.fetch ⟨false, false, 0⟩ true [("x").toList]
        (fun _ => .ok (.arr [.num 1])) = .ok none :=
  ⟨Or.inl rfl,
    (c5_fetch_absent_and_raises ⟨false, false, 0⟩ true [("x").toList]
      (fun _ => .ok (.arr [.num 1]))).1 (Or.inl rfl)⟩

/-- C5 counterexample to the claim as stated: output that decodes to a
JSON object (not "a JSON array with a first element") makes `fetch`
raise an uncaught `KeyError` from `json.loads(data)[0]` instead of
returning absent. -/
theorem c5_object_raises_counterexample :
    ExifSession.fetch ⟨true, false, 0⟩ true
        [("\x7b\x7d").toList, ExifSession.tokenStr 1]
        (fun _ => .ok (.obj [])) = .error .keyError ∧
    (Except.error .keyError : Except PyErr (Option ExifSession.PyJson)) ≠ .ok none := by
  exact ⟨rfl, by simp⟩
